import Mathlib

/-! # Pre-launch (idle state) command dispatcher of the flight computer

Shallow embedding of `src/app/flight/appa/rev2/prelaunch.c`:
`pre_launch_loop`, `prelaunch_terminal`, `preset_cmd_execute` and
`check_config_validity`.

Modelling conventions.

* Every call of an external collaborator (USB, flash, ignition, LED, buzzer,
  flight loop, `error_fail_fast`) appends one `Event` to a chronological
  trace.  What a collaborator answers is given by an `Env`; each answer may
  depend on the whole trace so far.
* `error_fail_fast` does not return: a call ends the run with `Res.fatal`.
* Loops that need not terminate take a `fuel` argument; `Res.timeout` means
  the fuel ran out while the loop was still running.
* Constants, types and functions declared in headers that are not part of the
  source file are fields of `Platform`.
* Bytes are natural numbers; the target is a little-endian 32-bit machine.
* Of the collaborators only `finCalibration` and `flight_loop` write the
  globals of this file; `write_preset` may advance `*flash_address`.
-/

namespace Prelaunch

/-- Status of the USB transport.  The two enumerators the source names are kept
apart from every other value of the enumeration: the source tests both
`!= USB_OK` and `== USB_FAIL`. -/
inductive USB_STATUS where
  | USB_OK
  | USB_FAIL
  | USB_OTHER (code : Nat)
  deriving DecidableEq

/-- Status of the flash layer. -/
inductive FLASH_STATUS where
  | FLASH_OK
  | FLASH_FAIL
  | FLASH_PRESET_NOT_FOUND
  | FLASH_OTHER (code : Nat)
  deriving DecidableEq

/-- State of the flight computer. -/
inductive FLIGHT_COMP_STATE_TYPE where
  | FC_STATE_IDLE
  | FC_STATE_FLIGHT
  | FC_STATE_OTHER (code : Nat)
  deriving DecidableEq

/-- Error kinds passed to `error_fail_fast` in the source file. -/
inductive ERROR_CODE where
  | ERROR_USB_UART_ERROR
  | ERROR_INVALID_STATE_ERROR
  | ERROR_SENSOR_CMD_ERROR
  | ERROR_SERVO_CMD_ERROR
  | ERROR_FLASH_CMD_ERROR
  | ERROR_CONFIG_VALIDITY_ERROR
  | ERROR_IGNITION_CONTINUITY_ERROR
  deriving DecidableEq

/-- Indicator colours used in the source file. -/
inductive LED_COLOR where
  | LED_GREEN
  | LED_YELLOW
  | LED_WHITE
  | LED_RED
  deriving DecidableEq

/-- The record `PRESET_DATA`: a 32-bit checksum followed by the configuration
settings, kept as the bytes of `CONFIG_SETTINGS_TYPE`. -/
structure PRESET_DATA where
  checksum : Nat
  config_settings : List Nat
  deriving DecidableEq

/-- What a `usb_transmit` call is given to send: a byte buffer with known
contents, or the object `*flash_status`. -/
inductive TxBuf where
  | bytes (bs : List Nat)
  | flash_status_obj (v : FLASH_STATUS)
  deriving DecidableEq

/-- The pointer arguments shared by the supervisor, the dispatcher and the
flight loop, as abstract addresses. -/
structure Handles where
  flash_status : Nat
  flash_handle : Nat
  flash_address : Nat
  gps_mesg_byte : Nat
  sensor_status : Nat
  deriving DecidableEq

/-- One call of an external collaborator, with its arguments and its answer. -/
inductive Event where
  | led_set_color (c : LED_COLOR)
  | buzzer_beep (ms : Nat)
  | buzzer_multi_beeps (on_ms off_ms count : Nat)
  | HAL_Delay (ms : Nat)
  | usb_detect (present : Bool)
  | usb_receive (n : Nat) (status : USB_STATUS) (buffer : List Nat)
  | usb_transmit (buf : TxBuf) (n : Nat) (status : USB_STATUS)
  | ping
  | sensor_cmd_execute (subcommand : Nat)
  | finCalibration (status : USB_STATUS) (preset_after : PRESET_DATA)
  | flash_cmd_execute (subcommand : Nat) (flash_handle : Nat) (status : FLASH_STATUS)
  | write_preset (flash_handle : Nat) (record : PRESET_DATA) (flash_address : Nat)
      (status : FLASH_STATUS)
  | ign_switch_cont (cont : Bool)
  | ign_drogue_cont (cont : Bool)
  | ign_main_cont (cont : Bool)
  | flight_loop (gps_mesg_byte flash_status flash_handle flash_address sensor_status : Nat)
  | error_fail_fast (code : ERROR_CODE)
  deriving DecidableEq

/-- The globals and pointees the source file reads and writes, with the trace
of collaborator calls made so far. -/
structure St where
  preset_data : PRESET_DATA
  flight_computer_state : FLIGHT_COMP_STATE_TYPE
  flash_status : FLASH_STATUS
  flash_address : Nat
  trace : List Event
  deriving DecidableEq

/-- What the flight loop leaves behind when it returns. -/
structure FlightExit where
  preset_data : PRESET_DATA
  flight_computer_state : FLIGHT_COMP_STATE_TYPE
  flash_status : FLASH_STATUS
  flash_address : Nat

/-- Constants, layout and pure helpers from headers outside the source file. -/
structure Platform where
  CONNECT_OP : Nat
  SENSOR_OP : Nat
  FIN_OP : Nat
  FLASH_OP : Nat
  PRESET_OP : Nat
  DUAL_DEPLOY_ENABLED : Nat
  ACTIVE_PITCH_YAW_CONTROL_ENABLED : Nat
  WIRELESS_TRANSMISSION_ENABLED : Nat
  ACTIVE_ROLL_CONTROL_ENABLED : Nat
  /-- Value of `sizeof( CONFIG_SETTINGS_TYPE )`. -/
  sizeof_CONFIG_SETTINGS_TYPE : Nat
  /-- Value of `sizeof( flash_status )`, the size of a `FLASH_STATUS*`. -/
  sizeof_flash_status_ptr : Nat
  /-- Value of the field `enabled_features` in the bytes of a `CONFIG_SETTINGS_TYPE`. -/
  enabled_features : List Nat → Nat
  /-- The function `crc32( data, length )` on the bytes it is given. -/
  crc32 : List Nat → Nat

/-- Answers of the external collaborators; the first argument is the trace at
the moment of the call. -/
structure Env where
  usb_detect : List Event → Bool
  /-- Status and the contents of the receive buffer after the call. -/
  usb_receive : List Event → Nat → USB_STATUS × List Nat
  usb_transmit : List Event → TxBuf → Nat → USB_STATUS
  /-- Status and the preset the calibration routine leaves in RAM. -/
  finCalibration : List Event → PRESET_DATA → USB_STATUS × PRESET_DATA
  flash_cmd_execute : List Event → Nat → FLASH_STATUS
  /-- Status and the value of `*flash_address` after the call. -/
  write_preset : List Event → PRESET_DATA → Nat → FLASH_STATUS × Nat
  ign_switch_cont : List Event → Bool
  ign_drogue_cont : List Event → Bool
  ign_main_cont : List Event → Bool
  /-- The flight loop: `none` when it never returns. -/
  flight_loop : List Event → Option FlightExit
  /-- The byte at address `(uint8_t*)&preset_data + off`, for offsets past the
  end of the record. -/
  ram : List Event → Nat → Nat

/-- How a run of a function ends. -/
inductive Res (α : Type) where
  | ret (a : α)
  | fatal (e : ERROR_CODE)
  | noreturn
  | timeout
  deriving DecidableEq

/-- Carry a non-returning end of a callee over to the caller. -/
def Res.cast {α β : Type} (d : β) : Res α → Res β
  | .ret _ => .ret d
  | .fatal e => .fatal e
  | .noreturn => .noreturn
  | .timeout => .timeout

/-- Append one collaborator call to the trace. -/
def emit (s : St) (e : Event) : St :=
  { s with trace := s.trace ++ [e] }

/-- Modelled from the spec: the declaration of `PRESET_DATA` is in a header
outside the source file; the record is `4 + sizeof(ConfigSettings)` bytes. -/
def sizeof_PRESET_DATA (pf : Platform) : Nat :=
  4 + pf.sizeof_CONFIG_SETTINGS_TYPE

/-- The four bytes of a 32-bit value in memory, least significant first. -/
def le_bytes32 (v : Nat) : List Nat :=
  [v % 256, v / 256 % 256, v / 65536 % 256, v / 16777216 % 256]

/-- The 32-bit value held by (up to) four bytes in memory:
`memcpy( &received_checksum, data_receive_buffer, 4 )`. -/
def le32 (bs : List Nat) : Nat :=
  bs.getD 0 0 % 256 + 256 * (bs.getD 1 0 % 256) + 65536 * (bs.getD 2 0 % 256)
    + 16777216 * (bs.getD 3 0 % 256)

/-- The bytes of the in-RAM record: `memcpy( buffer, &preset_data, sizeof(PRESET_DATA) )`. -/
def PRESET_DATA.bytes (p : PRESET_DATA) : List Nat :=
  le_bytes32 p.checksum ++ p.config_settings

/-- Call `write_preset( flash_handle, &preset_data, flash_address )`. -/
def write_preset (env : Env) (h : Handles) (s : St) : St × FLASH_STATUS :=
  let r := env.write_preset s.trace s.preset_data s.flash_address
  (emit { s with flash_address := r.2 }
     (Event.write_preset h.flash_handle s.preset_data h.flash_address r.1), r.1)

/-- Call `error_fail_fast( code )`. -/
def error_fail_fast {α : Type} (code : ERROR_CODE) (s : St) : St × Res α :=
  (emit s (Event.error_fail_fast code), Res.fatal code)

/-- The bytes `crc32` is given in the VERIFY case:
`sizeof( PRESET_DATA ) - 4` bytes from `(uint8_t*)( &(preset_data) + 4 )`. -/
def verify_region (pf : Platform) (env : Env) (s : St) : List Nat :=
  (List.range (sizeof_PRESET_DATA pf - 4)).map
    (fun i => env.ram s.trace (4 * sizeof_PRESET_DATA pf + i))

/-- The function `preset_cmd_execute`. -/
def preset_cmd_execute (pf : Platform) (env : Env) (h : Handles)
    (subcommand_code : Nat) (s : St) : St × Res FLASH_STATUS :=
  if subcommand_code = 0x01 then
    let rx := env.usb_receive s.trace (pf.sizeof_CONFIG_SETTINGS_TYPE + 4)
    let s1 := emit s (Event.usb_receive (pf.sizeof_CONFIG_SETTINGS_TYPE + 4) rx.1 rx.2)
    let data_receive_buffer := rx.2
    let payload := (data_receive_buffer.drop 4).take pf.sizeof_CONFIG_SETTINGS_TYPE
    let checksum := pf.crc32 payload % 2 ^ 32
    let received_checksum := le32 (data_receive_buffer.take 4)
    let s2 : St :=
      if received_checksum = checksum then
        { s1 with preset_data := { s1.preset_data with config_settings := payload } }
      else
        { s1 with preset_data := { checksum := 0, config_settings := payload } }
    let w := write_preset env h s2
    (w.1, Res.ret w.2)
  else if subcommand_code = 0x02 then
    let buffer := s.preset_data.bytes
    let usb_status := env.usb_transmit s.trace (TxBuf.bytes buffer) (sizeof_PRESET_DATA pf)
    let s1 := emit s (Event.usb_transmit (TxBuf.bytes buffer) (sizeof_PRESET_DATA pf) usb_status)
    if usb_status ≠ USB_STATUS.USB_OK then (s1, Res.ret FLASH_STATUS.FLASH_FAIL)
    else (s1, Res.ret FLASH_STATUS.FLASH_OK)
  else if subcommand_code = 0x03 then
    let checksum := pf.crc32 (verify_region pf env s) % 2 ^ 32
    let result : Nat := if checksum = s.preset_data.checksum then 1 else 0
    let usb_status := env.usb_transmit s.trace (TxBuf.bytes [result]) 1
    let s1 := emit s (Event.usb_transmit (TxBuf.bytes [result]) 1 usb_status)
    if usb_status ≠ USB_STATUS.USB_OK then error_fail_fast ERROR_CODE.ERROR_USB_UART_ERROR s1
    else (s1, Res.ret FLASH_STATUS.FLASH_OK)
  else
    error_fail_fast ERROR_CODE.ERROR_USB_UART_ERROR s

/-- One pass through the body of the lockout loop of `check_config_validity`. -/
def lockout_body (s : St) : St :=
  emit (emit (emit (emit s (Event.led_set_color LED_COLOR.LED_WHITE)) (Event.buzzer_beep 400))
    (Event.led_set_color LED_COLOR.LED_RED)) (Event.HAL_Delay 400)

/-- The loop `while ( !valid ) { ... }` of `check_config_validity`, followed by
`return valid`. -/
def check_config_validity_loop (valid : Bool) : Nat → St → St × Res Bool
  | 0, s => if !valid then (s, Res.timeout) else (s, Res.ret valid)
  | fuel + 1, s =>
    if !valid then check_config_validity_loop valid fuel (lockout_body s)
    else (s, Res.ret valid)

/-- The mask of feature flags `check_config_validity` rejects. -/
def invalid_feature_flags (pf : Platform) : Nat :=
  pf.ACTIVE_PITCH_YAW_CONTROL_ENABLED ||| pf.WIRELESS_TRANSMISSION_ENABLED
    ||| pf.ACTIVE_ROLL_CONTROL_ENABLED

/-- The function `check_config_validity`. -/
def check_config_validity (pf : Platform) (fuel : Nat) (preset_data_ptr : PRESET_DATA)
    (s : St) : St × Res Bool :=
  let valid : Bool :=
    if pf.enabled_features preset_data_ptr.config_settings &&& invalid_feature_flags pf ≠ 0
    then false else true
  check_config_validity_loop valid fuel s

/-- The call `flight_loop( gps_mesg_byte, flash_status, flash_handle,
flash_address, sensor_status )` and the `return usb_status` after it. -/
def call_flight_loop (env : Env) (h : Handles) (usb_status : USB_STATUS) (s : St) :
    St × Res USB_STATUS :=
  let ev := Event.flight_loop h.gps_mesg_byte h.flash_status h.flash_handle h.flash_address
    h.sensor_status
  match env.flight_loop s.trace with
  | none => (emit s ev, Res.noreturn)
  | some x =>
    ({ preset_data := x.preset_data, flight_computer_state := x.flight_computer_state,
       flash_status := x.flash_status, flash_address := x.flash_address,
       trace := s.trace ++ [ev] }, Res.ret usb_status)

/-- The chute continuity check of `prelaunch_terminal` and what follows it. -/
def chute_continuity (pf : Platform) (env : Env) (h : Handles) (usb_status : USB_STATUS)
    (s : St) : St × Res USB_STATUS :=
  if pf.enabled_features s.preset_data.config_settings &&& pf.DUAL_DEPLOY_ENABLED ≠ 0 then
    let drogue := env.ign_drogue_cont s.trace
    let s1 := emit s (Event.ign_drogue_cont drogue)
    if !drogue then
      error_fail_fast ERROR_CODE.ERROR_IGNITION_CONTINUITY_ERROR (emit s1 (Event.buzzer_beep 3000))
    else
      let main := env.ign_main_cont s1.trace
      let s2 := emit s1 (Event.ign_main_cont main)
      if !main then
        error_fail_fast ERROR_CODE.ERROR_IGNITION_CONTINUITY_ERROR
          (emit s2 (Event.buzzer_beep 3000))
      else call_flight_loop env h usb_status s2
  else call_flight_loop env h usb_status s

/-- The part "Arm Flight Computer" of `prelaunch_terminal`, up to its `return`. -/
def arming_gate (pf : Platform) (env : Env) (h : Handles) (fuel : Nat)
    (usb_status : USB_STATUS) (s : St) : St × Res USB_STATUS :=
  let sw := env.ign_switch_cont s.trace
  let s1 := emit s (Event.ign_switch_cont sw)
  if sw then
    match check_config_validity pf fuel s1.preset_data s1 with
    | (s2, Res.ret valid) =>
      if !valid then error_fail_fast ERROR_CODE.ERROR_CONFIG_VALIDITY_ERROR s2
      else chute_continuity pf env h usb_status s2
    | (s2, r) => (s2, r.cast usb_status)
  else (s1, Res.ret usb_status)

/-- Transmit `*flash_status` with length `sizeof( flash_status )` and raise
`ERROR_FLASH_CMD_ERROR` when the transmit fails (end of FLASH_OP and PRESET_OP). -/
def transmit_flash_status (pf : Platform) (env : Env) (s : St) : St × Res USB_STATUS :=
  let usb_status := env.usb_transmit s.trace (TxBuf.flash_status_obj s.flash_status)
    pf.sizeof_flash_status_ptr
  let s1 := emit s (Event.usb_transmit (TxBuf.flash_status_obj s.flash_status)
    pf.sizeof_flash_status_ptr usb_status)
  if usb_status ≠ USB_STATUS.USB_OK then error_fail_fast ERROR_CODE.ERROR_FLASH_CMD_ERROR s1
  else (s1, Res.ret usb_status)

/-- The case `CONNECT_OP` of the command switch. -/
def connect_op (env : Env) (firmware_code : Nat) (usb_status : USB_STATUS) (s : St) :
    St × Res USB_STATUS :=
  let s1 := emit s Event.ping
  let t := env.usb_transmit s1.trace (TxBuf.bytes [firmware_code]) 1
  (emit s1 (Event.usb_transmit (TxBuf.bytes [firmware_code]) 1 t), Res.ret usb_status)

/-- The case `SENSOR_OP` of the command switch. -/
def sensor_op (env : Env) (usb_status : USB_STATUS) (s : St) : St × Res USB_STATUS :=
  let rx := env.usb_receive s.trace 1
  let s1 := emit s (Event.usb_receive 1 rx.1 rx.2)
  let command_status := rx.1
  let subcommand_code := rx.2.headD 0
  if command_status = USB_STATUS.USB_OK then
    (emit s1 (Event.sensor_cmd_execute subcommand_code), Res.ret usb_status)
  else error_fail_fast ERROR_CODE.ERROR_SENSOR_CMD_ERROR s1

/-- The case `FIN_OP` of the command switch. -/
def fin_op (env : Env) (h : Handles) (s : St) : St × Res USB_STATUS :=
  let r := env.finCalibration s.trace s.preset_data
  let s1 := emit { s with preset_data := r.2 } (Event.finCalibration r.1 r.2)
  let usb_status := r.1
  if usb_status ≠ USB_STATUS.USB_OK then error_fail_fast ERROR_CODE.ERROR_SERVO_CMD_ERROR s1
  else
    let w := write_preset env h s1
    if w.2 ≠ FLASH_STATUS.FLASH_OK then error_fail_fast ERROR_CODE.ERROR_FLASH_CMD_ERROR w.1
    else (w.1, Res.ret usb_status)

/-- The case `FLASH_OP` of the command switch. -/
def flash_op (pf : Platform) (env : Env) (h : Handles) (s : St) : St × Res USB_STATUS :=
  let rx := env.usb_receive s.trace 1
  let s1 := emit s (Event.usb_receive 1 rx.1 rx.2)
  let usb_status := rx.1
  let subcommand_code := rx.2.headD 0
  if usb_status = USB_STATUS.USB_OK then
    let fs := env.flash_cmd_execute s1.trace subcommand_code
    let s2 := emit { s1 with flash_status := fs }
      (Event.flash_cmd_execute subcommand_code h.flash_handle fs)
    transmit_flash_status pf env s2
  else error_fail_fast ERROR_CODE.ERROR_FLASH_CMD_ERROR s1

/-- The case `PRESET_OP` of the command switch. -/
def preset_op (pf : Platform) (env : Env) (h : Handles) (s : St) : St × Res USB_STATUS :=
  let rx := env.usb_receive s.trace 1
  let s1 := emit s (Event.usb_receive 1 rx.1 rx.2)
  let usb_status := rx.1
  let subcommand_code := rx.2.headD 0
  if usb_status = USB_STATUS.USB_OK then
    match preset_cmd_execute pf env h subcommand_code s1 with
    | (s2, Res.ret fs) => transmit_flash_status pf env { s2 with flash_status := fs }
    | (s2, r) => (s2, r.cast usb_status)
  else error_fail_fast ERROR_CODE.ERROR_FLASH_CMD_ERROR s1

/-- The part "Terminal Command Handler" of `prelaunch_terminal`: everything
before the arming gate.  The value returned is `usb_status`. -/
def command_phase (pf : Platform) (env : Env) (h : Handles) (firmware_code : Nat) (s : St) :
    St × Res USB_STATUS :=
  let s0 := emit s (Event.led_set_color LED_COLOR.LED_GREEN)
  let present := env.usb_detect s0.trace
  let s1 := emit s0 (Event.usb_detect present)
  if present then
    let rx := env.usb_receive s1.trace 1
    let s2 := emit s1 (Event.usb_receive 1 rx.1 rx.2)
    let usb_status := rx.1
    let usb_rx_data := rx.2.headD 0
    if usb_status = USB_STATUS.USB_OK then
      if usb_rx_data = pf.CONNECT_OP then connect_op env firmware_code usb_status s2
      else if usb_rx_data = pf.SENSOR_OP then sensor_op env usb_status s2
      else if usb_rx_data = pf.FIN_OP then fin_op env h s2
      else if usb_rx_data = pf.FLASH_OP then flash_op pf env h s2
      else if usb_rx_data = pf.PRESET_OP then preset_op pf env h s2
      else (s2, Res.ret usb_status)
    else (s2, Res.ret usb_status)
  else (s1, Res.ret USB_STATUS.USB_OK)

/-- The function `prelaunch_terminal`: the command handler, then the arming gate. -/
def prelaunch_terminal (pf : Platform) (env : Env) (h : Handles) (firmware_code : Nat)
    (fuel : Nat) (s : St) : St × Res USB_STATUS :=
  match command_phase pf env h firmware_code s with
  | (s1, Res.ret usb_status) => arming_gate pf env h fuel usb_status s1
  | (s1, r) => (s1, r)

/-- The loop `while ( flight_computer_state == FC_STATE_IDLE )` of
`pre_launch_loop` and the `error_fail_fast` after it. -/
def idle_loop (pf : Platform) (env : Env) (h : Handles) (firmware_code : Nat) :
    Nat → St → St × Res Unit
  | 0, s =>
    if s.flight_computer_state = FLIGHT_COMP_STATE_TYPE.FC_STATE_IDLE then (s, Res.timeout)
    else error_fail_fast ERROR_CODE.ERROR_INVALID_STATE_ERROR s
  | fuel + 1, s =>
    if s.flight_computer_state = FLIGHT_COMP_STATE_TYPE.FC_STATE_IDLE then
      match prelaunch_terminal pf env h firmware_code fuel s with
      | (s1, Res.ret usb_status) =>
        if usb_status = USB_STATUS.USB_FAIL then
          error_fail_fast ERROR_CODE.ERROR_USB_UART_ERROR s1
        else idle_loop pf env h firmware_code fuel s1
      | (s1, r) => (s1, r.cast ())
    else error_fail_fast ERROR_CODE.ERROR_INVALID_STATE_ERROR s

/-- The function `pre_launch_loop`. -/
def pre_launch_loop (pf : Platform) (env : Env) (h : Handles) (firmware_code : Nat)
    (fuel : Nat) (s : St) : St × Res Unit :=
  let s0 :=
    if s.flash_status = FLASH_STATUS.FLASH_PRESET_NOT_FOUND then
      emit (emit s (Event.led_set_color LED_COLOR.LED_YELLOW)) (Event.buzzer_multi_beeps 500 500 3)
    else s
  let s1 := emit (emit { s0 with flight_computer_state := FLIGHT_COMP_STATE_TYPE.FC_STATE_IDLE }
    (Event.led_set_color LED_COLOR.LED_GREEN)) (Event.buzzer_multi_beeps 50 50 2)
  idle_loop pf env h firmware_code fuel s1

/-- The events of `n` passes through the lockout loop: the sequence
`led_set_color( LED_WHITE )`, `buzzer_beep( 400 )`, `led_set_color( LED_RED )`,
`HAL_Delay( 400 )`, repeated `n` times. -/
def lockout_events : Nat → List Event
  | 0 => []
  | n + 1 =>
    [Event.led_set_color LED_COLOR.LED_WHITE, Event.buzzer_beep 400,
      Event.led_set_color LED_COLOR.LED_RED, Event.HAL_Delay 400] ++ lockout_events n

/-- Whether an event is a call of `flight_loop`. -/
def Event.is_flight_loop : Event → Bool
  | Event.flight_loop _ _ _ _ _ => true
  | _ => false

/-- Whether an event is a call of `error_fail_fast`. -/
def Event.is_error_fail_fast : Event → Bool
  | Event.error_fail_fast _ => true
  | _ => false

/-- The collaborator calls made between state `s` and a later state `s2`. -/
def new_events (s s2 : St) : List Event :=
  s2.trace.drop s.trace.length

/-- The value of `preset_data.config_settings.enabled_features`. -/
def enabled_features_of (pf : Platform) (s : St) : Nat :=
  pf.enabled_features s.preset_data.config_settings


/-! ## Sample instances for concrete evaluation -/

/-- One bit step of the reflected CRC-32 with polynomial `0xEDB88320`. -/
def crc32_step (crc : Nat) : Nat :=
  if crc % 2 = 1 then (crc / 2) ^^^ 0xEDB88320 else crc / 2

/-- Feed one byte into the CRC register. -/
def crc32_byte (crc b : Nat) : Nat :=
  crc32_step (crc32_step (crc32_step (crc32_step (crc32_step (crc32_step (crc32_step
    (crc32_step (crc ^^^ (b % 256)))))))))

/-- A sample `crc32`: the CRC-32 of IEEE 802.3 (initial value and final
complement `0xFFFFFFFF`).  Used only where a statement is evaluated on
concrete bytes; the general theorems hold for every `Platform.crc32`. -/
def crc32_ieee (bs : List Nat) : Nat :=
  (bs.foldl crc32_byte 0xFFFFFFFF) ^^^ 0xFFFFFFFF

/-- A sample platform: a four-byte `CONFIG_SETTINGS_TYPE` whose first byte is
`enabled_features`, one-bit feature flags, and `crc32_ieee`. -/
def samplePlatform : Platform where
  CONNECT_OP := 0x02
  SENSOR_OP := 0x03
  FIN_OP := 0x04
  FLASH_OP := 0x22
  PRESET_OP := 0x24
  DUAL_DEPLOY_ENABLED := 0x01
  ACTIVE_PITCH_YAW_CONTROL_ENABLED := 0x02
  WIRELESS_TRANSMISSION_ENABLED := 0x04
  ACTIVE_ROLL_CONTROL_ENABLED := 0x08
  sizeof_CONFIG_SETTINGS_TYPE := 4
  sizeof_flash_status_ptr := 4
  enabled_features := fun cfg => cfg.headD 0
  crc32 := crc32_ieee

/-- A sample environment: a host is attached and every `usb_receive` leaves
`rx` in the buffer with status `rxStatus`; transmits and flash operations
succeed; the ignition inputs read `sw`, `drogue`, `main`; the flight loop does
not return; RAM past the preset reads `ram`. -/
def sampleEnv (rxStatus : USB_STATUS) (rx : List Nat) (sw drogue main : Bool)
    (ram : Nat → Nat) : Env where
  usb_detect := fun _ => true
  usb_receive := fun _ _ => (rxStatus, rx)
  usb_transmit := fun _ _ _ => USB_STATUS.USB_OK
  finCalibration := fun _ p => (USB_STATUS.USB_OK, p)
  flash_cmd_execute := fun _ _ => FLASH_STATUS.FLASH_OK
  write_preset := fun _ _ a => (FLASH_STATUS.FLASH_OK, a)
  ign_switch_cont := fun _ => sw
  ign_drogue_cont := fun _ => drogue
  ign_main_cont := fun _ => main
  flight_loop := fun _ => none
  ram := fun _ => ram

/-- Sample handles. -/
def sampleHandles : Handles where
  flash_status := 0x100
  flash_handle := 0x200
  flash_address := 0x300
  gps_mesg_byte := 0x400
  sensor_status := 0x500

/-- A sample idle state holding the given preset, with an empty trace. -/
def sampleSt (p : PRESET_DATA) : St where
  preset_data := p
  flight_computer_state := FLIGHT_COMP_STATE_TYPE.FC_STATE_IDLE
  flash_status := FLASH_STATUS.FLASH_OK
  flash_address := 0
  trace := []

/-- The RAM image used for C4: the four bytes at offsets 32..35 from
`&preset_data` are `9D 0A D9 6D`, whose CRC-32 is 0; every other byte is 0. -/
def ram_with_zero_crc (off : Nat) : Nat :=
  if off = 32 then 157 else if off = 33 then 10 else if off = 34 then 217
  else if off = 35 then 109 else 0

/-- State `s2` continues the trace of `s` without a call of `flight_loop`. -/
def quiet_step (s s2 : St) : Prop :=
  ∃ evs, s2.trace = s.trace ++ evs ∧ ∀ e ∈ evs, e.is_flight_loop = false

/-- The `flight_loop` call with the handles the dispatcher was given. -/
def flight_loop_event (h : Handles) : Event :=
  Event.flight_loop h.gps_mesg_byte h.flash_status h.flash_handle h.flash_address h.sensor_status

/-- The collaborator calls of the chute continuity check and what follows it,
read off the answers of the environment. -/
def chute_events (pf : Platform) (env : Env) (h : Handles) (s : St) : List Event :=
  if enabled_features_of pf s &&& pf.DUAL_DEPLOY_ENABLED ≠ 0 then
    if env.ign_drogue_cont s.trace = true then
      if env.ign_main_cont (s.trace ++ [Event.ign_drogue_cont true]) = true then
        [Event.ign_drogue_cont true, Event.ign_main_cont true, flight_loop_event h]
      else
        [Event.ign_drogue_cont true, Event.ign_main_cont false, Event.buzzer_beep 3000,
          Event.error_fail_fast ERROR_CODE.ERROR_IGNITION_CONTINUITY_ERROR]
    else
      [Event.ign_drogue_cont false, Event.buzzer_beep 3000,
        Event.error_fail_fast ERROR_CODE.ERROR_IGNITION_CONTINUITY_ERROR]
  else [flight_loop_event h]

/-- The state of the sample cycles at the arming gate: the host sent the
unknown opcode `0xFF`. -/
def sampleGateSt (p : PRESET_DATA) : St :=
  { sampleSt p with
    trace := [Event.led_set_color LED_COLOR.LED_GREEN, Event.usb_detect true,
      Event.usb_receive 1 USB_STATUS.USB_OK [255]] }

/-- Whether an event is a call of `usb_transmit`. -/
def Event.is_usb_transmit : Event → Bool
  | Event.usb_transmit _ _ _ => true
  | _ => false

/-- Whether an event is a call of `usb_receive`. -/
def Event.is_usb_receive : Event → Bool
  | Event.usb_receive _ _ _ => true
  | _ => false

/-- Whether an event is the call `error_fail_fast( ERROR_CONFIG_VALIDITY_ERROR )`. -/
def Event.is_config_validity_error : Event → Bool
  | Event.error_fail_fast ERROR_CODE.ERROR_CONFIG_VALIDITY_ERROR => true
  | _ => false

/-- Whether an event is the call `error_fail_fast( ERROR_FLASH_CMD_ERROR )`. -/
def Event.is_flash_cmd_error : Event → Bool
  | Event.error_fail_fast ERROR_CODE.ERROR_FLASH_CMD_ERROR => true
  | _ => false

/-- The case labels of the command switch are pairwise different, as the
language requires of a `switch`. -/
@[reducible]
def opcodes_distinct (pf : Platform) : Prop :=
  [pf.CONNECT_OP, pf.SENSOR_OP, pf.FIN_OP, pf.FLASH_OP, pf.PRESET_OP].Nodup

/-- The state in which the command switch is entered: the indicator was set,
a host was detected and the opcode byte was received into `buf`. -/
def opcode_received (s : St) (buf : List Nat) : St :=
  emit (emit (emit s (Event.led_set_color LED_COLOR.LED_GREEN)) (Event.usb_detect true))
    (Event.usb_receive 1 USB_STATUS.USB_OK buf)

/-- A sample environment with a scripted host: the k-th call of `usb_receive`
answers the k-th entry of `script`, every transmit answers `tx`, the flash
layer answers `fl`, the ignition switch reads `sw`, the calibration routine
answers `cal` and leaves the preset as it is. -/
def scriptEnv (script : List (USB_STATUS × List Nat)) (tx : USB_STATUS) (fl : FLASH_STATUS)
    (cal : USB_STATUS) (sw : Bool) : Env where
  usb_detect := fun _ => true
  usb_receive := fun tr _ =>
    script.getD (tr.filter Event.is_usb_receive).length (USB_STATUS.USB_FAIL, [])
  usb_transmit := fun _ _ _ => tx
  finCalibration := fun _ p => (cal, p)
  flash_cmd_execute := fun _ _ => fl
  write_preset := fun _ _ a => (fl, a)
  ign_switch_cont := fun _ => sw
  ign_drogue_cont := fun _ => true
  ign_main_cont := fun _ => true
  flight_loop := fun _ => none
  ram := fun _ _ => 0

/-- The calls the arming gate makes, read off the answers of the environment. -/
def gate_events (pf : Platform) (env : Env) (h : Handles) (fuel : Nat) (s : St) : List Event :=
  if env.ign_switch_cont s.trace = true then
    if enabled_features_of pf s &&& invalid_feature_flags pf ≠ 0 then
      Event.ign_switch_cont true :: lockout_events fuel
    else
      Event.ign_switch_cont true :: chute_events pf env h (emit s (Event.ign_switch_cont true))
  else [Event.ign_switch_cont false]

/-- State `s2` continues the trace of `s` without a call
`error_fail_fast( ERROR_CONFIG_VALIDITY_ERROR )`. -/
def calm_step (s s2 : St) : Prop :=
  ∃ evs, s2.trace = s.trace ++ evs ∧ ∀ e ∈ evs, e.is_config_validity_error = false

/-- A sample environment in which the ignition switch is asserted and the
flight loop returns, leaving the state `FC_STATE_FLIGHT`; a host is attached
and sends the unknown opcode `0xFF`. -/
def flightReturnsEnv : Env where
  usb_detect := fun _ => true
  usb_receive := fun _ _ => (USB_STATUS.USB_OK, [255])
  usb_transmit := fun _ _ _ => USB_STATUS.USB_OK
  finCalibration := fun _ p => (USB_STATUS.USB_OK, p)
  flash_cmd_execute := fun _ _ => FLASH_STATUS.FLASH_OK
  write_preset := fun _ _ a => (FLASH_STATUS.FLASH_OK, a)
  ign_switch_cont := fun _ => true
  ign_drogue_cont := fun _ => true
  ign_main_cont := fun _ => true
  flight_loop := fun _ =>
    some { preset_data := { checksum := 0, config_settings := [0, 0, 0, 0] },
           flight_computer_state := FLIGHT_COMP_STATE_TYPE.FC_STATE_FLIGHT,
           flash_status := FLASH_STATUS.FLASH_OK, flash_address := 0 }
  ram := fun _ _ => 0

/-! ## Lemmas on the byte helpers -/

theorem le32_le_bytes32 (v : Nat) (hv : v < 2 ^ 32) (l : List Nat) :
    le32 ((le_bytes32 v ++ l).take 4) = v := by
  simp [le32, le_bytes32]
  omega

theorem payload_of_buffer (v : Nat) (P : List Nat) (k : Nat) (hP : P.length = k) :
    ((le_bytes32 v ++ P).drop 4).take k = P := by
  simp [le_bytes32, ← hP]

theorem le_bytes32_zero : le_bytes32 0 = [0, 0, 0, 0] := by
  simp [le_bytes32]

/-! ## Preset upload, download and verify -/

/-- State after the UPLOAD case, as a function of the received buffer. -/
theorem preset_upload_eq (pf : Platform) (env : Env) (h : Handles) (s : St) :
    preset_cmd_execute pf env h 1 s =
      let rx := env.usb_receive s.trace (pf.sizeof_CONFIG_SETTINGS_TYPE + 4)
      let s1 := emit s (Event.usb_receive (pf.sizeof_CONFIG_SETTINGS_TYPE + 4) rx.1 rx.2)
      let payload := (rx.2.drop 4).take pf.sizeof_CONFIG_SETTINGS_TYPE
      let p : PRESET_DATA :=
        if le32 (rx.2.take 4) = pf.crc32 payload % 2 ^ 32 then
          { checksum := s.preset_data.checksum, config_settings := payload }
        else { checksum := 0, config_settings := payload }
      let w := write_preset env h { s1 with preset_data := p }
      (w.1, Res.ret w.2) := by
  simp only [preset_cmd_execute, if_true, emit]
  split <;> rfl

/-- Trace and result of the DOWNLOAD case. -/
theorem preset_download_eq (pf : Platform) (env : Env) (h : Handles) (s : St) :
    preset_cmd_execute pf env h 2 s =
      let st := env.usb_transmit s.trace (TxBuf.bytes s.preset_data.bytes) (sizeof_PRESET_DATA pf)
      (emit s (Event.usb_transmit (TxBuf.bytes s.preset_data.bytes) (sizeof_PRESET_DATA pf) st),
        Res.ret (if st ≠ USB_STATUS.USB_OK then FLASH_STATUS.FLASH_FAIL
          else FLASH_STATUS.FLASH_OK)) := by
  simp only [preset_cmd_execute]
  simp only [show ¬ ((2 : Nat) = 1) by decide, if_false, if_true]
  split <;> rfl

/-- State after the VERIFY case: one transmit of the comparison result. -/
theorem preset_verify_state (pf : Platform) (env : Env) (h : Handles) (s : St) :
    (preset_cmd_execute pf env h 3 s).1.trace =
      let result : Nat :=
        if pf.crc32 (verify_region pf env s) % 2 ^ 32 = s.preset_data.checksum then 1 else 0
      let st := env.usb_transmit s.trace (TxBuf.bytes [result]) 1
      s.trace ++ [Event.usb_transmit (TxBuf.bytes [result]) 1 st] ++
        (if st ≠ USB_STATUS.USB_OK then
          [Event.error_fail_fast ERROR_CODE.ERROR_USB_UART_ERROR] else []) := by
  simp only [preset_cmd_execute]
  simp only [show ¬ ((3 : Nat) = 1) by decide, show ¬ ((3 : Nat) = 2) by decide, if_false,
    if_true]
  split <;> split <;> simp_all [error_fail_fast, emit]

/-- When the received checksum equals the computed one, UPLOAD leaves the
stored checksum field as it was before the upload. -/
theorem preset_upload_match_keeps_checksum (pf : Platform) (env : Env) (h : Handles) (s : St)
    (hm : le32 ((env.usb_receive s.trace (pf.sizeof_CONFIG_SETTINGS_TYPE + 4)).2.take 4) =
      pf.crc32 (((env.usb_receive s.trace (pf.sizeof_CONFIG_SETTINGS_TYPE + 4)).2.drop 4).take
        pf.sizeof_CONFIG_SETTINGS_TYPE) % 2 ^ 32) :
    (preset_cmd_execute pf env h 1 s).1.preset_data.checksum = s.preset_data.checksum := by
  rw [preset_upload_eq]
  simp [write_preset, emit, hm]

/-- C1 (code bug): with stored checksum 0 in RAM, uploading the payload
`00 00 00 00` together with its correct CRC `0x2144DF1C` leaves the stored
checksum at 0, and the following DOWNLOAD transmits `00 00 00 00` followed by
the payload instead of the CRC followed by the payload. -/
theorem upload_matching_crc_keeps_old_checksum :
    le_bytes32 (samplePlatform.crc32 [0, 0, 0, 0]) ++ [0, 0, 0, 0]
        = [28, 223, 68, 33, 0, 0, 0, 0] ∧
      samplePlatform.crc32 [0, 0, 0, 0] = 558161692 ∧
      (preset_cmd_execute samplePlatform
        (sampleEnv USB_STATUS.USB_OK [28, 223, 68, 33, 0, 0, 0, 0] false false false (fun _ => 0))
        sampleHandles 1 (sampleSt { checksum := 0, config_settings := [1, 0, 0, 0] }))
        = ({ preset_data := { checksum := 0, config_settings := [0, 0, 0, 0] },
             flight_computer_state := FLIGHT_COMP_STATE_TYPE.FC_STATE_IDLE,
             flash_status := FLASH_STATUS.FLASH_OK, flash_address := 0,
             trace := [Event.usb_receive 8 USB_STATUS.USB_OK [28, 223, 68, 33, 0, 0, 0, 0],
               Event.write_preset 0x200 { checksum := 0, config_settings := [0, 0, 0, 0] } 0x300
                 FLASH_STATUS.FLASH_OK] }, Res.ret FLASH_STATUS.FLASH_OK) ∧
      (preset_cmd_execute samplePlatform
        (sampleEnv USB_STATUS.USB_OK [28, 223, 68, 33, 0, 0, 0, 0] false false false (fun _ => 0))
        sampleHandles 2
        (preset_cmd_execute samplePlatform
          (sampleEnv USB_STATUS.USB_OK [28, 223, 68, 33, 0, 0, 0, 0] false false false
            (fun _ => 0))
          sampleHandles 1 (sampleSt { checksum := 0, config_settings := [1, 0, 0, 0] })).1).1.trace
        = [Event.usb_receive 8 USB_STATUS.USB_OK [28, 223, 68, 33, 0, 0, 0, 0],
           Event.write_preset 0x200 { checksum := 0, config_settings := [0, 0, 0, 0] } 0x300
             FLASH_STATUS.FLASH_OK,
           Event.usb_transmit (TxBuf.bytes [0, 0, 0, 0, 0, 0, 0, 0]) 8 USB_STATUS.USB_OK] := by
  decide

/-- C2: when the received checksum differs from the CRC of the received
payload, UPLOAD leaves the in-RAM preset with stored checksum 0 and the
received payload, and a DOWNLOAD on that preset transmits `00 00 00 00`
followed by the payload. -/
theorem upload_mismatch_zeroes_checksum (pf : Platform) (env : Env) (h : Handles) (s : St)
    (C' : Nat) (P : List Nat) (hC : C' < 2 ^ 32)
    (hP : P.length = pf.sizeof_CONFIG_SETTINGS_TYPE)
    (hrx : (env.usb_receive s.trace (pf.sizeof_CONFIG_SETTINGS_TYPE + 4)).2 = le_bytes32 C' ++ P)
    (hne : C' ≠ pf.crc32 P % 2 ^ 32) :
    (preset_cmd_execute pf env h 1 s).1.preset_data = { checksum := 0, config_settings := P } ∧
      ∀ s2 : St, s2.preset_data = (preset_cmd_execute pf env h 1 s).1.preset_data →
        ∃ st, (preset_cmd_execute pf env h 2 s2).1.trace = s2.trace ++
          [Event.usb_transmit (TxBuf.bytes ([0, 0, 0, 0] ++ P))
            (4 + pf.sizeof_CONFIG_SETTINGS_TYPE) st] := by
  have hpre : (preset_cmd_execute pf env h 1 s).1.preset_data
      = { checksum := 0, config_settings := P } := by
    rw [preset_upload_eq]
    simp only [hrx, le32_le_bytes32 C' hC P, payload_of_buffer C' P _ hP, if_neg hne]
    simp [write_preset, emit]
  refine ⟨hpre, ?_⟩
  intro s2 hs2
  rw [hpre] at hs2
  rw [preset_download_eq]
  exact ⟨env.usb_transmit s2.trace (TxBuf.bytes s2.preset_data.bytes) (sizeof_PRESET_DATA pf),
    by simp only [emit, hs2, PRESET_DATA.bytes, le_bytes32_zero, sizeof_PRESET_DATA]⟩

/-- Witness for C2: the payload `00 00 00 00` uploaded with checksum `0xDEADBEEF`. -/
theorem upload_mismatch_zeroes_checksum_witness :
    (preset_cmd_execute samplePlatform
      (sampleEnv USB_STATUS.USB_OK [239, 190, 173, 222, 0, 0, 0, 0] false false false
        (fun _ => 0)) sampleHandles 1
      (sampleSt { checksum := 7, config_settings := [1, 0, 0, 0] })).1.preset_data
      = { checksum := 0, config_settings := [0, 0, 0, 0] } ∧
    ∀ s2 : St, s2.preset_data = (preset_cmd_execute samplePlatform
      (sampleEnv USB_STATUS.USB_OK [239, 190, 173, 222, 0, 0, 0, 0] false false false
        (fun _ => 0)) sampleHandles 1
      (sampleSt { checksum := 7, config_settings := [1, 0, 0, 0] })).1.preset_data →
        ∃ st, (preset_cmd_execute samplePlatform
          (sampleEnv USB_STATUS.USB_OK [239, 190, 173, 222, 0, 0, 0, 0] false false false
            (fun _ => 0)) sampleHandles 2 s2).1.trace = s2.trace ++
          [Event.usb_transmit (TxBuf.bytes ([0, 0, 0, 0] ++ [0, 0, 0, 0]))
            (4 + samplePlatform.sizeof_CONFIG_SETTINGS_TYPE) st] :=
  upload_mismatch_zeroes_checksum samplePlatform
    (sampleEnv USB_STATUS.USB_OK [239, 190, 173, 222, 0, 0, 0, 0] false false false (fun _ => 0))
    sampleHandles (sampleSt { checksum := 7, config_settings := [1, 0, 0, 0] })
    3735928559 [0, 0, 0, 0] (by decide) (by decide) (by decide) (by decide)

/-- C3 (code bug): the in-RAM preset holds the payload `01 00 00 00` and its
correct CRC `0x99F8B879`, the RAM past the record reads zero; VERIFY transmits
the single byte 0 (invalid) and returns `FLASH_OK`, where the CRC over the
payload equals the stored checksum. -/
theorem verify_reads_past_the_preset :
    samplePlatform.crc32 [1, 0, 0, 0] = 2583214201 ∧
      verify_region samplePlatform
        (sampleEnv USB_STATUS.USB_OK [] false false false (fun a => a))
        (sampleSt { checksum := 2583214201, config_settings := [1, 0, 0, 0] })
        = [32, 33, 34, 35] ∧
      preset_cmd_execute samplePlatform
        (sampleEnv USB_STATUS.USB_OK [] false false false (fun _ => 0)) sampleHandles 3
        (sampleSt { checksum := 2583214201, config_settings := [1, 0, 0, 0] })
        = ({ preset_data := { checksum := 2583214201, config_settings := [1, 0, 0, 0] },
             flight_computer_state := FLIGHT_COMP_STATE_TYPE.FC_STATE_IDLE,
             flash_status := FLASH_STATUS.FLASH_OK, flash_address := 0,
             trace := [Event.usb_transmit (TxBuf.bytes [0]) 1 USB_STATUS.USB_OK] },
           Res.ret FLASH_STATUS.FLASH_OK) := by
  decide

/-- C4 (code bug): the payload `00 00 00 00`, whose CRC is `0x2144DF1C`, is
uploaded with the wrong checksum `0xDEADBEEF`, so the stored checksum becomes
0 and differs from the CRC of the payload in RAM; the four bytes VERIFY reads,
at offsets 32..35 from `&preset_data`, are `9D 0A D9 6D` with CRC 0, and the
VERIFY that follows the upload transmits the byte 1 (valid) instead of 0. -/
theorem mismatched_upload_can_verify_valid :
    3735928559 ≠ samplePlatform.crc32 [0, 0, 0, 0] % 2 ^ 32 ∧
      le_bytes32 3735928559 ++ [0, 0, 0, 0] = [239, 190, 173, 222, 0, 0, 0, 0] ∧
      (preset_cmd_execute samplePlatform
        (sampleEnv USB_STATUS.USB_OK [239, 190, 173, 222, 0, 0, 0, 0] false false false
          ram_with_zero_crc) sampleHandles 1
        (sampleSt { checksum := 7, config_settings := [1, 0, 0, 0] })).1.preset_data
        = { checksum := 0, config_settings := [0, 0, 0, 0] } ∧
      samplePlatform.crc32 [0, 0, 0, 0] % 2 ^ 32 = 558161692 ∧
      verify_region samplePlatform
        (sampleEnv USB_STATUS.USB_OK [239, 190, 173, 222, 0, 0, 0, 0] false false false
          ram_with_zero_crc)
        (preset_cmd_execute samplePlatform
          (sampleEnv USB_STATUS.USB_OK [239, 190, 173, 222, 0, 0, 0, 0] false false false
            ram_with_zero_crc) sampleHandles 1
          (sampleSt { checksum := 7, config_settings := [1, 0, 0, 0] })).1
        = [157, 10, 217, 109] ∧
      samplePlatform.crc32 [157, 10, 217, 109] % 2 ^ 32 = 0 ∧
      (preset_cmd_execute samplePlatform
        (sampleEnv USB_STATUS.USB_OK [239, 190, 173, 222, 0, 0, 0, 0] false false false
          ram_with_zero_crc) sampleHandles 3
        (preset_cmd_execute samplePlatform
          (sampleEnv USB_STATUS.USB_OK [239, 190, 173, 222, 0, 0, 0, 0] false false false
            ram_with_zero_crc) sampleHandles 1
          (sampleSt { checksum := 7, config_settings := [1, 0, 0, 0] })).1).1.trace
        = [Event.usb_receive 8 USB_STATUS.USB_OK [239, 190, 173, 222, 0, 0, 0, 0],
           Event.write_preset 0x200 { checksum := 0, config_settings := [0, 0, 0, 0] } 0x300
             FLASH_STATUS.FLASH_OK,
           Event.usb_transmit (TxBuf.bytes [1]) 1 USB_STATUS.USB_OK] := by
  decide

/-- After an UPLOAD whose received checksum differs from the CRC of the
received payload the stored checksum is 0, and the byte a VERIFY on that
preset transmits is decided by the CRC of the bytes of `verify_region` alone:
0 when that CRC is nonzero, 1 when it is 0. -/
theorem verify_after_mismatched_upload (pf : Platform) (env : Env) (h : Handles) (s : St)
    (C' : Nat) (P : List Nat) (hC : C' < 2 ^ 32)
    (hP : P.length = pf.sizeof_CONFIG_SETTINGS_TYPE)
    (hrx : (env.usb_receive s.trace (pf.sizeof_CONFIG_SETTINGS_TYPE + 4)).2 = le_bytes32 C' ++ P)
    (hne : C' ≠ pf.crc32 P % 2 ^ 32) :
    (preset_cmd_execute pf env h 1 s).1.preset_data.checksum = 0 ∧
      ∀ s2 : St, s2.preset_data = (preset_cmd_execute pf env h 1 s).1.preset_data →
        ∃ st, (preset_cmd_execute pf env h 3 s2).1.trace = s2.trace ++
          [Event.usb_transmit
            (TxBuf.bytes [if pf.crc32 (verify_region pf env s2) % 2 ^ 32 = 0 then 1 else 0]) 1 st]
          ++ (if st ≠ USB_STATUS.USB_OK then
            [Event.error_fail_fast ERROR_CODE.ERROR_USB_UART_ERROR] else []) := by
  have hpre : (preset_cmd_execute pf env h 1 s).1.preset_data.checksum = 0 := by
    rw [preset_upload_eq]
    simp only [hrx, le32_le_bytes32 C' hC P, payload_of_buffer C' P _ hP, if_neg hne]
    simp [write_preset, emit]
  refine ⟨hpre, ?_⟩
  intro s2 hs2
  rw [preset_verify_state, hs2, hpre]
  exact ⟨_, rfl⟩

/-- The upload `DE AD BE EF 00 00 00 00` on the sample platform, with RAM past
the record reading zero. -/
theorem verify_after_mismatched_upload_witness :
    (preset_cmd_execute samplePlatform
      (sampleEnv USB_STATUS.USB_OK [239, 190, 173, 222, 0, 0, 0, 0] false false false
        (fun _ => 0)) sampleHandles 1
      (sampleSt { checksum := 7, config_settings := [1, 0, 0, 0] })).1.preset_data.checksum = 0 ∧
    ∀ s2 : St, s2.preset_data = (preset_cmd_execute samplePlatform
      (sampleEnv USB_STATUS.USB_OK [239, 190, 173, 222, 0, 0, 0, 0] false false false
        (fun _ => 0)) sampleHandles 1
      (sampleSt { checksum := 7, config_settings := [1, 0, 0, 0] })).1.preset_data →
        ∃ st, (preset_cmd_execute samplePlatform
          (sampleEnv USB_STATUS.USB_OK [239, 190, 173, 222, 0, 0, 0, 0] false false false
            (fun _ => 0)) sampleHandles 3 s2).1.trace = s2.trace ++
          [Event.usb_transmit
            (TxBuf.bytes [if samplePlatform.crc32 (verify_region samplePlatform
              (sampleEnv USB_STATUS.USB_OK [239, 190, 173, 222, 0, 0, 0, 0] false false false
                (fun _ => 0)) s2) % 2 ^ 32 = 0 then 1 else 0]) 1 st]
          ++ (if st ≠ USB_STATUS.USB_OK then
            [Event.error_fail_fast ERROR_CODE.ERROR_USB_UART_ERROR] else []) :=
  verify_after_mismatched_upload samplePlatform
    (sampleEnv USB_STATUS.USB_OK [239, 190, 173, 222, 0, 0, 0, 0] false false false (fun _ => 0))
    sampleHandles (sampleSt { checksum := 7, config_settings := [1, 0, 0, 0] })
    3735928559 [0, 0, 0, 0] (by decide) (by decide) (by decide) (by decide)

/-! ## Configuration validity and the arming gate -/

theorem check_config_validity_loop_true (fuel : Nat) (s : St) :
    check_config_validity_loop true fuel s = (s, Res.ret true) := by
  cases fuel <;> simp [check_config_validity_loop]

theorem check_config_validity_loop_false (fuel : Nat) (s : St) :
    check_config_validity_loop false fuel s =
      ({ s with trace := s.trace ++ lockout_events fuel }, Res.timeout) := by
  induction fuel generalizing s with
  | zero => simp [check_config_validity_loop, lockout_events]
  | succ n ih =>
    simp [check_config_validity_loop, ih, lockout_body, emit, lockout_events]

theorem lockout_events_no_flight_loop (n : Nat) :
    ∀ e ∈ lockout_events n, e.is_flight_loop = false := by
  induction n with
  | zero => simp [lockout_events]
  | succ n ih =>
    intro e he
    simp only [lockout_events, List.mem_append, List.mem_cons, List.mem_singleton,
      List.not_mem_nil, or_false] at he
    rcases he with (rfl | rfl | rfl | rfl) | he
    · rfl
    · rfl
    · rfl
    · rfl
    · exact ih e he

theorem check_config_validity_valid (pf : Platform) (fuel : Nat) (p : PRESET_DATA) (s : St)
    (hv : pf.enabled_features p.config_settings &&& invalid_feature_flags pf = 0) :
    check_config_validity pf fuel p s = (s, Res.ret true) := by
  simp [check_config_validity, hv, check_config_validity_loop_true]

theorem check_config_validity_invalid (pf : Platform) (fuel : Nat) (p : PRESET_DATA) (s : St)
    (hv : pf.enabled_features p.config_settings &&& invalid_feature_flags pf ≠ 0) :
    check_config_validity pf fuel p s =
      ({ s with trace := s.trace ++ lockout_events fuel }, Res.timeout) := by
  simp [check_config_validity, hv, check_config_validity_loop_false]

theorem land_lor_distrib (a b c : Nat) : a &&& (b ||| c) = (a &&& b) ||| (a &&& c) := by
  apply Nat.eq_of_testBit_eq
  intro i
  simp [Nat.testBit_land, Nat.testBit_lor, Bool.and_or_distrib_left]

theorem lor_eq_zero (x y : Nat) : x ||| y = 0 ↔ x = 0 ∧ y = 0 := by
  constructor
  · intro h
    have hb : ∀ i, (x ||| y).testBit i = false := by simp [h]
    simp only [Nat.testBit_lor, Bool.or_eq_false_iff] at hb
    constructor <;> apply Nat.eq_of_testBit_eq <;> intro i <;> simp [hb i]
  · rintro ⟨rfl, rfl⟩
    simp

/-- A flag of the mask is set exactly when one of the three flags is set. -/
theorem invalid_feature_flags_set (pf : Platform) (ef : Nat) :
    ef &&& invalid_feature_flags pf ≠ 0 ↔
      (ef &&& pf.ACTIVE_PITCH_YAW_CONTROL_ENABLED ≠ 0 ∨
        ef &&& pf.WIRELESS_TRANSMISSION_ENABLED ≠ 0 ∨
        ef &&& pf.ACTIVE_ROLL_CONTROL_ENABLED ≠ 0) := by
  unfold invalid_feature_flags
  rw [land_lor_distrib, land_lor_distrib]
  simp only [ne_eq, lor_eq_zero]
  tauto

theorem arming_gate_off (pf : Platform) (env : Env) (h : Handles) (fuel : Nat) (u : USB_STATUS)
    (s : St) (hsw : env.ign_switch_cont s.trace = false) :
    arming_gate pf env h fuel u s = (emit s (Event.ign_switch_cont false), Res.ret u) := by
  simp [arming_gate, hsw]

theorem arming_gate_invalid (pf : Platform) (env : Env) (h : Handles) (fuel : Nat)
    (u : USB_STATUS) (s : St) (hsw : env.ign_switch_cont s.trace = true)
    (hinv : enabled_features_of pf s &&& invalid_feature_flags pf ≠ 0) :
    arming_gate pf env h fuel u s =
      ({ s with trace := s.trace ++ Event.ign_switch_cont true :: lockout_events fuel },
        Res.timeout) := by
  have hinv2 : pf.enabled_features (emit s (Event.ign_switch_cont true)).preset_data.config_settings
      &&& invalid_feature_flags pf ≠ 0 := hinv
  simp only [arming_gate, hsw, if_true]
  rw [check_config_validity_invalid pf fuel _ _ hinv2]
  simp [Res.cast, emit]

theorem arming_gate_valid (pf : Platform) (env : Env) (h : Handles) (fuel : Nat)
    (u : USB_STATUS) (s : St) (hsw : env.ign_switch_cont s.trace = true)
    (hv : enabled_features_of pf s &&& invalid_feature_flags pf = 0) :
    arming_gate pf env h fuel u s =
      chute_continuity pf env h u (emit s (Event.ign_switch_cont true)) := by
  have hv2 : pf.enabled_features (emit s (Event.ign_switch_cont true)).preset_data.config_settings
      &&& invalid_feature_flags pf = 0 := hv
  simp only [arming_gate, hsw, if_true]
  rw [check_config_validity_valid pf fuel _ _ hv2]
  simp

/-- C6: `check_config_validity` returns true, without any indicator action,
when no flag of the mask is set in `enabled_features`; when one of the three
flags is set it never returns (for every amount of fuel it is still in the
lockout loop); and two presets whose `enabled_features` agree on the mask give
the same run. -/
theorem check_config_validity_rule (pf : Platform) (fuel : Nat) (p : PRESET_DATA) (s : St) :
    (pf.enabled_features p.config_settings &&&
        (pf.ACTIVE_PITCH_YAW_CONTROL_ENABLED ||| pf.WIRELESS_TRANSMISSION_ENABLED
          ||| pf.ACTIVE_ROLL_CONTROL_ENABLED) = 0 →
      check_config_validity pf fuel p s = (s, Res.ret true)) ∧
    ((pf.enabled_features p.config_settings &&& pf.ACTIVE_PITCH_YAW_CONTROL_ENABLED ≠ 0 ∨
        pf.enabled_features p.config_settings &&& pf.WIRELESS_TRANSMISSION_ENABLED ≠ 0 ∨
        pf.enabled_features p.config_settings &&& pf.ACTIVE_ROLL_CONTROL_ENABLED ≠ 0) →
      check_config_validity pf fuel p s =
        ({ s with trace := s.trace ++ lockout_events fuel }, Res.timeout)) ∧
    (∀ p2 : PRESET_DATA,
      pf.enabled_features p2.config_settings &&& invalid_feature_flags pf =
        pf.enabled_features p.config_settings &&& invalid_feature_flags pf →
      check_config_validity pf fuel p2 s = check_config_validity pf fuel p s) := by
  refine ⟨fun hv => check_config_validity_valid pf fuel p s hv, fun hany => ?_, fun p2 h2 => ?_⟩
  · exact check_config_validity_invalid pf fuel p s ((invalid_feature_flags_set pf _).2 hany)
  · simp only [check_config_validity, h2]

/-- Witness for C6: on the sample platform a preset with only the dual-deploy
flag is valid, one with the wireless flag is locked out, and a preset that
differs from the first in every other field gives the same run. -/
theorem check_config_validity_rule_witness :
    check_config_validity samplePlatform 2 { checksum := 0, config_settings := [1, 0, 0, 0] }
        (sampleSt { checksum := 0, config_settings := [1, 0, 0, 0] })
      = (sampleSt { checksum := 0, config_settings := [1, 0, 0, 0] }, Res.ret true) ∧
    check_config_validity samplePlatform 2 { checksum := 0, config_settings := [4, 0, 0, 0] }
        (sampleSt { checksum := 0, config_settings := [4, 0, 0, 0] })
      = ({ sampleSt { checksum := 0, config_settings := [4, 0, 0, 0] } with
            trace := [] ++ lockout_events 2 }, Res.timeout) ∧
    check_config_validity samplePlatform 2 { checksum := 9, config_settings := [0, 5, 6, 7] }
        (sampleSt { checksum := 0, config_settings := [1, 0, 0, 0] })
      = check_config_validity samplePlatform 2 { checksum := 0, config_settings := [1, 0, 0, 0] }
        (sampleSt { checksum := 0, config_settings := [1, 0, 0, 0] }) :=
  ⟨(check_config_validity_rule samplePlatform 2 { checksum := 0, config_settings := [1, 0, 0, 0] }
      (sampleSt { checksum := 0, config_settings := [1, 0, 0, 0] })).1 (by decide),
    (check_config_validity_rule samplePlatform 2 { checksum := 0, config_settings := [4, 0, 0, 0] }
      (sampleSt { checksum := 0, config_settings := [4, 0, 0, 0] })).2.1 (by decide),
    (check_config_validity_rule samplePlatform 2 { checksum := 0, config_settings := [1, 0, 0, 0] }
      (sampleSt { checksum := 0, config_settings := [1, 0, 0, 0] })).2.2
      { checksum := 9, config_settings := [0, 5, 6, 7] } (by decide)⟩

/-! ## Events of the command handler -/

theorem preset_cmd_execute_events (pf : Platform) (env : Env) (h : Handles) (sub : Nat) (s : St) :
    ∃ evs, (preset_cmd_execute pf env h sub s).1.trace = s.trace ++ evs ∧
      ∀ e ∈ evs, e.is_flight_loop = false := by
  by_cases h1 : sub = 1
  · subst h1
    rw [preset_upload_eq]
    exact ⟨_, by simp only [write_preset, emit, List.append_assoc]; rfl,
      by simp [Event.is_flight_loop]⟩
  by_cases h2 : sub = 2
  · subst h2
    rw [preset_download_eq]
    exact ⟨_, rfl, by simp [Event.is_flight_loop]⟩
  by_cases h3 : sub = 3
  · subst h3
    rw [preset_verify_state]
    exact ⟨_, by simp only [List.append_assoc]; rfl, by
      intro e he
      split at he <;> simp at he <;> rcases he with rfl | ⟨_, rfl⟩ <;> rfl⟩
  · refine ⟨[Event.error_fail_fast ERROR_CODE.ERROR_USB_UART_ERROR], ?_, by
      simp [Event.is_flight_loop]⟩
    simp [preset_cmd_execute, h1, h2, h3, error_fail_fast, emit]

theorem quiet_refl (s : St) : quiet_step s s :=
  ⟨[], by simp, by simp⟩

theorem quiet_trans (s0 s1 s2 : St) (h01 : quiet_step s0 s1) (h12 : quiet_step s1 s2) :
    quiet_step s0 s2 := by
  obtain ⟨e1, ht1, hf1⟩ := h01
  obtain ⟨e2, ht2, hf2⟩ := h12
  refine ⟨e1 ++ e2, by rw [ht2, ht1, List.append_assoc], ?_⟩
  intro e he
  rcases List.mem_append.1 he with he | he
  · exact hf1 e he
  · exact hf2 e he

theorem quiet_congr (s0 s s2 : St) (ht : s2.trace = s.trace) (hq : quiet_step s0 s) :
    quiet_step s0 s2 := by
  obtain ⟨evs, h1, h2⟩ := hq
  exact ⟨evs, by rw [ht, h1], h2⟩

theorem quiet_emit (s0 s : St) (e : Event) (hq : quiet_step s0 s)
    (he : e.is_flight_loop = false) : quiet_step s0 (emit s e) :=
  quiet_trans s0 s _ hq ⟨[e], rfl, by simpa using he⟩

theorem quiet_error (s0 s : St) (α : Type) (code : ERROR_CODE) (hq : quiet_step s0 s) :
    quiet_step s0 (error_fail_fast code s : St × Res α).1 :=
  quiet_emit s0 s _ hq rfl

theorem quiet_write_preset (s0 s : St) (env : Env) (h : Handles) (hq : quiet_step s0 s) :
    quiet_step s0 (write_preset env h s).1 :=
  quiet_emit s0 _ _ (quiet_congr s0 s _ rfl hq) rfl

theorem quiet_transmit_flash_status (s0 s : St) (pf : Platform) (env : Env)
    (hq : quiet_step s0 s) : quiet_step s0 (transmit_flash_status pf env s).1 := by
  unfold transmit_flash_status
  simp only []
  split
  · exact quiet_error s0 _ _ _ (quiet_emit s0 s _ hq rfl)
  · exact quiet_emit s0 s _ hq rfl

theorem quiet_preset_cmd_execute (s0 s : St) (pf : Platform) (env : Env) (h : Handles)
    (sub : Nat) (hq : quiet_step s0 s) : quiet_step s0 (preset_cmd_execute pf env h sub s).1 :=
  quiet_trans s0 s _ hq (preset_cmd_execute_events pf env h sub s)

theorem quiet_connect_op (s0 s : St) (env : Env) (fc : Nat) (u : USB_STATUS)
    (hq : quiet_step s0 s) : quiet_step s0 (connect_op env fc u s).1 :=
  quiet_emit s0 _ _ (quiet_emit s0 s _ hq rfl) rfl

theorem quiet_sensor_op (s0 s : St) (env : Env) (u : USB_STATUS)
    (hq : quiet_step s0 s) : quiet_step s0 (sensor_op env u s).1 := by
  unfold sensor_op
  simp only []
  split
  · exact quiet_emit s0 _ _ (quiet_emit s0 s _ hq rfl) rfl
  · exact quiet_error s0 _ _ _ (quiet_emit s0 s _ hq rfl)

theorem quiet_fin_op (s0 s : St) (env : Env) (h : Handles)
    (hq : quiet_step s0 s) : quiet_step s0 (fin_op env h s).1 := by
  have h1 : quiet_step s0 (emit { s with preset_data := (env.finCalibration s.trace s.preset_data).2 }
      (Event.finCalibration (env.finCalibration s.trace s.preset_data).1
        (env.finCalibration s.trace s.preset_data).2)) :=
    quiet_emit s0 _ _ (quiet_congr s0 s _ rfl hq) rfl
  unfold fin_op
  simp only []
  split
  · exact quiet_error s0 _ _ _ h1
  · split
    · exact quiet_error s0 _ _ _ (quiet_write_preset s0 _ env h h1)
    · exact quiet_write_preset s0 _ env h h1

theorem quiet_flash_op (s0 s : St) (pf : Platform) (env : Env) (h : Handles)
    (hq : quiet_step s0 s) : quiet_step s0 (flash_op pf env h s).1 := by
  unfold flash_op
  simp only []
  split
  · exact quiet_transmit_flash_status s0 _ pf env
      (quiet_emit s0 _ _ (quiet_congr s0 _ _ rfl (quiet_emit s0 s _ hq rfl)) rfl)
  · exact quiet_error s0 _ _ _ (quiet_emit s0 s _ hq rfl)

theorem quiet_preset_op (s0 s : St) (pf : Platform) (env : Env) (h : Handles)
    (hq : quiet_step s0 s) : quiet_step s0 (preset_op pf env h s).1 := by
  have h1 := quiet_preset_cmd_execute s0 _ pf env h ((env.usb_receive s.trace 1).2.headD 0)
    (quiet_emit s0 s (Event.usb_receive 1 (env.usb_receive s.trace 1).1
      (env.usb_receive s.trace 1).2) hq rfl)
  unfold preset_op
  simp only []
  split
  · split
    · rename_i s2 fs heq
      rw [heq] at h1
      exact quiet_transmit_flash_status s0 _ pf env (quiet_congr s0 s2 _ rfl h1)
    · rename_i s2 r _ heq
      rw [heq] at h1
      exact h1
  · exact quiet_error s0 _ _ _ (quiet_emit s0 s _ hq rfl)

/-- The command handler never calls `flight_loop`. -/
theorem quiet_command_phase (pf : Platform) (env : Env) (h : Handles) (fc : Nat) (s : St) :
    quiet_step s (command_phase pf env h fc s).1 := by
  have h1 : quiet_step s (emit (emit s (Event.led_set_color LED_COLOR.LED_GREEN))
      (Event.usb_detect (env.usb_detect (emit s (Event.led_set_color LED_COLOR.LED_GREEN)).trace))) :=
    quiet_emit s _ _ (quiet_emit s s _ (quiet_refl s) rfl) rfl
  have h2 := quiet_emit s _ (Event.usb_receive 1
    (env.usb_receive (emit (emit s (Event.led_set_color LED_COLOR.LED_GREEN))
      (Event.usb_detect (env.usb_detect
        (emit s (Event.led_set_color LED_COLOR.LED_GREEN)).trace))).trace 1).1
    (env.usb_receive (emit (emit s (Event.led_set_color LED_COLOR.LED_GREEN))
      (Event.usb_detect (env.usb_detect
        (emit s (Event.led_set_color LED_COLOR.LED_GREEN)).trace))).trace 1).2) h1 rfl
  unfold command_phase
  simp only []
  split
  · split
    · split
      · exact quiet_connect_op s _ env fc _ h2
      · split
        · exact quiet_sensor_op s _ env _ h2
        · split
          · exact quiet_fin_op s _ env h h2
          · split
            · exact quiet_flash_op s _ pf env h h2
            · split
              · exact quiet_preset_op s _ pf env h h2
              · exact h2
    · exact h2
  · exact h1

/-! ## The arming gate after the command handler -/

theorem call_flight_loop_trace (env : Env) (h : Handles) (u : USB_STATUS) (s : St) :
    (call_flight_loop env h u s).1.trace = s.trace ++ [flight_loop_event h] := by
  unfold call_flight_loop
  split <;> simp [emit, flight_loop_event]

theorem call_flight_loop_result (env : Env) (h : Handles) (u : USB_STATUS) (s : St) :
    (call_flight_loop env h u s).2 = Res.ret u ∨ (call_flight_loop env h u s).2 = Res.noreturn := by
  unfold call_flight_loop
  split <;> simp

theorem chute_continuity_trace (pf : Platform) (env : Env) (h : Handles) (u : USB_STATUS)
    (s : St) :
    (chute_continuity pf env h u s).1.trace = s.trace ++ chute_events pf env h s := by
  unfold chute_continuity chute_events enabled_features_of
  simp only []
  split
  · cases hd : env.ign_drogue_cont s.trace
    · simp [error_fail_fast, emit]
    · cases hm : env.ign_main_cont (s.trace ++ [Event.ign_drogue_cont true])
      · simp [error_fail_fast, emit, hm]
      · simp [emit, hm, call_flight_loop_trace]
  · exact call_flight_loop_trace env h u s

theorem prelaunch_terminal_of_command_ret (pf : Platform) (env : Env) (h : Handles) (fc : Nat)
    (fuel : Nat) (s s1 : St) (u : USB_STATUS)
    (hcp : command_phase pf env h fc s = (s1, Res.ret u)) :
    prelaunch_terminal pf env h fc fuel s = arming_gate pf env h fuel u s1 := by
  simp [prelaunch_terminal, hcp]

theorem new_events_append (s : St) (s2 : St) (evs : List Event)
    (ht : s2.trace = s.trace ++ evs) : new_events s s2 = evs := by
  simp [new_events, ht]

theorem quiet_new_events (s s2 : St) (hq : quiet_step s s2) :
    ∀ e ∈ new_events s s2, e.is_flight_loop = false := by
  obtain ⟨evs, ht, hf⟩ := hq
  rw [new_events_append s s2 evs ht]
  exact hf

/-- The calls the arming gate makes, read off the answers of the environment. -/
theorem arming_gate_new_events (pf : Platform) (env : Env) (h : Handles) (fuel : Nat)
    (u : USB_STATUS) (s : St) :
    new_events s (arming_gate pf env h fuel u s).1 =
      if env.ign_switch_cont s.trace = true then
        if enabled_features_of pf s &&& invalid_feature_flags pf ≠ 0 then
          Event.ign_switch_cont true :: lockout_events fuel
        else
          Event.ign_switch_cont true
            :: chute_events pf env h (emit s (Event.ign_switch_cont true))
      else [Event.ign_switch_cont false] := by
  cases hsw : env.ign_switch_cont s.trace
  · rw [arming_gate_off pf env h fuel u s hsw]
    simp [new_events, emit]
  · by_cases hinv : enabled_features_of pf s &&& invalid_feature_flags pf = 0
    · rw [arming_gate_valid pf env h fuel u s hsw hinv]
      apply new_events_append
      rw [chute_continuity_trace]
      simp [emit, hinv]
    · rw [arming_gate_invalid pf env h fuel u s hsw hinv]
      simp [new_events, hinv]

/-- C5: in a dispatcher cycle the command handler never calls `flight_loop`,
and a command handler that ends in a fatal error ends the cycle; when the
command handler returns, (a) a call of `flight_loop` by the arming gate implies
that the ignition switch showed continuity, that no rejected flag is set and
that dual deploy is clear or both chute channels showed continuity, (b) under
these conditions `flight_loop` is called exactly once, with the handles the
dispatcher was given, and (c) without continuity on the ignition switch the
dispatcher returns `usb_status` after reading the switch, with no further call. -/
theorem arming_precondition (pf : Platform) (env : Env) (h : Handles) (fc : Nat) (fuel : Nat)
    (s : St) :
    (∀ e ∈ new_events s (command_phase pf env h fc s).1, e.is_flight_loop = false) ∧
    (∀ s1 r, command_phase pf env h fc s = (s1, r) → (∀ u, r ≠ Res.ret u) →
      prelaunch_terminal pf env h fc fuel s = (s1, r)) ∧
    ∀ s1 u, command_phase pf env h fc s = (s1, Res.ret u) →
      ((∃ e ∈ new_events s1 (prelaunch_terminal pf env h fc fuel s).1, e.is_flight_loop = true) →
        Event.ign_switch_cont true ∈ new_events s1 (prelaunch_terminal pf env h fc fuel s).1 ∧
        enabled_features_of pf s1 &&& invalid_feature_flags pf = 0 ∧
        (enabled_features_of pf s1 &&& pf.DUAL_DEPLOY_ENABLED = 0 ∨
          (Event.ign_drogue_cont true ∈ new_events s1 (prelaunch_terminal pf env h fc fuel s).1 ∧
           Event.ign_main_cont true ∈ new_events s1 (prelaunch_terminal pf env h fc fuel s).1))) ∧
      (env.ign_switch_cont s1.trace = true →
        enabled_features_of pf s1 &&& invalid_feature_flags pf = 0 →
        (enabled_features_of pf s1 &&& pf.DUAL_DEPLOY_ENABLED = 0 ∨
          (env.ign_drogue_cont (s1.trace ++ [Event.ign_switch_cont true]) = true ∧
           env.ign_main_cont (s1.trace ++ [Event.ign_switch_cont true, Event.ign_drogue_cont true])
             = true)) →
        (new_events s1 (prelaunch_terminal pf env h fc fuel s).1).filter Event.is_flight_loop =
          [Event.flight_loop h.gps_mesg_byte h.flash_status h.flash_handle h.flash_address
            h.sensor_status]) ∧
      (env.ign_switch_cont s1.trace = false →
        prelaunch_terminal pf env h fc fuel s = (emit s1 (Event.ign_switch_cont false), Res.ret u))
    := by
  refine ⟨quiet_new_events s _ (quiet_command_phase pf env h fc s), ?_, ?_⟩
  · intro s1 r hcp hr
    cases r with
    | ret u => exact absurd rfl (hr u)
    | fatal e => simp [prelaunch_terminal, hcp]
    | noreturn => simp [prelaunch_terminal, hcp]
    | timeout => simp [prelaunch_terminal, hcp]
  · intro s1 u hcp
    rw [prelaunch_terminal_of_command_ret pf env h fc fuel s s1 u hcp, arming_gate_new_events]
    refine ⟨?_, ?_, ?_⟩
    · rintro ⟨e, he, hfl⟩
      by_cases hsw : env.ign_switch_cont s1.trace = true
      · by_cases hv : enabled_features_of pf s1 &&& invalid_feature_flags pf = 0
        · have hef : enabled_features_of pf (emit s1 (Event.ign_switch_cont true))
            = enabled_features_of pf s1 := rfl
          rw [if_pos hsw, if_neg (not_not.2 hv)] at he ⊢
          refine ⟨by simp, hv, ?_⟩
          by_cases hd : enabled_features_of pf s1 &&& pf.DUAL_DEPLOY_ENABLED = 0
          · exact Or.inl hd
          · right
            unfold chute_events at he ⊢
            rw [hef, if_pos hd] at he ⊢
            by_cases hdr : env.ign_drogue_cont (emit s1 (Event.ign_switch_cont true)).trace = true
            · rw [if_pos hdr] at he ⊢
              by_cases hmn : env.ign_main_cont ((emit s1 (Event.ign_switch_cont true)).trace
                  ++ [Event.ign_drogue_cont true]) = true
              · rw [if_pos hmn]
                simp
              · rw [if_neg hmn] at he
                simp only [List.mem_cons, List.mem_singleton, List.not_mem_nil, or_false] at he
                rcases he with rfl | rfl | rfl | rfl | rfl <;>
                  simp [Event.is_flight_loop] at hfl
            · rw [if_neg hdr] at he
              simp only [List.mem_cons, List.mem_singleton, List.not_mem_nil, or_false] at he
              rcases he with rfl | rfl | rfl | rfl <;> simp [Event.is_flight_loop] at hfl
        · rw [if_pos hsw, if_pos hv] at he
          rcases List.mem_cons.1 he with rfl | he
          · simp [Event.is_flight_loop] at hfl
          · rw [lockout_events_no_flight_loop fuel e he] at hfl
            exact absurd hfl (by decide)
      · rw [if_neg hsw] at he
        simp only [List.mem_singleton] at he
        subst he
        simp [Event.is_flight_loop] at hfl
    · intro hsw hv hch
      rw [if_pos hsw, if_neg (not_not.2 hv)]
      unfold chute_events
      have hef : enabled_features_of pf (emit s1 (Event.ign_switch_cont true))
        = enabled_features_of pf s1 := rfl
      rw [hef]
      rcases hch with hd | ⟨hdr, hmn⟩
      · simp [hd, flight_loop_event, Event.is_flight_loop]
      · by_cases hd : enabled_features_of pf s1 &&& pf.DUAL_DEPLOY_ENABLED = 0
        · simp [hd, flight_loop_event, Event.is_flight_loop]
        · have hdr2 : env.ign_drogue_cont (emit s1 (Event.ign_switch_cont true)).trace = true :=
            hdr
          have hmn2 : env.ign_main_cont ((emit s1 (Event.ign_switch_cont true)).trace
              ++ [Event.ign_drogue_cont true]) = true := by
            simpa [emit] using hmn
          simp [hd, hdr2, hmn2, flight_loop_event, Event.is_flight_loop]
    · intro hsw
      exact arming_gate_off pf env h fuel u s1 hsw

/-- Witness for C5: on the sample platform, with dual deploy enabled and
continuity on the switch and on both chute channels, the cycle calls
`flight_loop` once with the sample handles. -/
theorem arming_precondition_witness :
    (new_events (sampleGateSt { checksum := 0, config_settings := [1, 0, 0, 0] })
      (prelaunch_terminal samplePlatform
        (sampleEnv USB_STATUS.USB_OK [255] true true true (fun _ => 0)) sampleHandles 7 0
        (sampleSt { checksum := 0, config_settings := [1, 0, 0, 0] })).1).filter
        Event.is_flight_loop
      = [Event.flight_loop 0x400 0x100 0x200 0x300 0x500] :=
  ((arming_precondition samplePlatform
      (sampleEnv USB_STATUS.USB_OK [255] true true true (fun _ => 0)) sampleHandles 7 0
      (sampleSt { checksum := 0, config_settings := [1, 0, 0, 0] })).2.2
    (sampleGateSt { checksum := 0, config_settings := [1, 0, 0, 0] }) USB_STATUS.USB_OK
    (by decide)).2.1 (by decide) (by decide) (by decide)

/-- C7: when the command handler has returned, the ignition switch shows
continuity and `enabled_features` holds one of the three rejected flags, the
dispatcher cycle is, for every amount of fuel, still inside the lockout loop:
it has not returned, the calls after the switch reading are exactly the
sequence WHITE, beep 400, RED, delay 400 repeated once per pass, and no call
of `flight_loop` occurs in the cycle. -/
theorem arming_refused_on_invalid_config (pf : Platform) (env : Env) (h : Handles) (fc : Nat)
    (fuel : Nat) (s s1 : St) (u : USB_STATUS)
    (hcp : command_phase pf env h fc s = (s1, Res.ret u))
    (hsw : env.ign_switch_cont s1.trace = true)
    (hflag : enabled_features_of pf s1 &&& pf.ACTIVE_PITCH_YAW_CONTROL_ENABLED ≠ 0 ∨
      enabled_features_of pf s1 &&& pf.WIRELESS_TRANSMISSION_ENABLED ≠ 0 ∨
      enabled_features_of pf s1 &&& pf.ACTIVE_ROLL_CONTROL_ENABLED ≠ 0) :
    prelaunch_terminal pf env h fc fuel s =
        ({ s1 with trace := s1.trace ++ Event.ign_switch_cont true :: lockout_events fuel },
          Res.timeout) ∧
      lockout_events (fuel + 1) =
        [Event.led_set_color LED_COLOR.LED_WHITE, Event.buzzer_beep 400,
          Event.led_set_color LED_COLOR.LED_RED, Event.HAL_Delay 400] ++ lockout_events fuel ∧
      ∀ e ∈ new_events s (prelaunch_terminal pf env h fc fuel s).1, e.is_flight_loop = false := by
  have hinv := (invalid_feature_flags_set pf (enabled_features_of pf s1)).2 hflag
  have hpt := prelaunch_terminal_of_command_ret pf env h fc fuel s s1 u hcp
  rw [arming_gate_invalid pf env h fuel u s1 hsw hinv] at hpt
  refine ⟨hpt, rfl, ?_⟩
  apply quiet_new_events
  rw [hpt]
  have hq : quiet_step s s1 := by
    have := quiet_command_phase pf env h fc s
    rw [hcp] at this
    exact this
  refine quiet_trans s s1 _ hq ⟨_, rfl, ?_⟩
  intro e he
  rcases List.mem_cons.1 he with rfl | he
  · rfl
  · exact lockout_events_no_flight_loop fuel e he

/-- Witness for C7: the sample cycle with `enabled_features` =
`WIRELESS_TRANSMISSION_ENABLED` and two passes of fuel. -/
theorem arming_refused_on_invalid_config_witness :
    prelaunch_terminal samplePlatform
        (sampleEnv USB_STATUS.USB_OK [255] true true true (fun _ => 0)) sampleHandles 7 2
        (sampleSt { checksum := 0, config_settings := [4, 0, 0, 0] }) =
        ({ sampleGateSt { checksum := 0, config_settings := [4, 0, 0, 0] } with
            trace := (sampleGateSt { checksum := 0, config_settings := [4, 0, 0, 0] }).trace
              ++ Event.ign_switch_cont true :: lockout_events 2 }, Res.timeout) ∧
      lockout_events (2 + 1) =
        [Event.led_set_color LED_COLOR.LED_WHITE, Event.buzzer_beep 400,
          Event.led_set_color LED_COLOR.LED_RED, Event.HAL_Delay 400] ++ lockout_events 2 ∧
      ∀ e ∈ new_events (sampleSt { checksum := 0, config_settings := [4, 0, 0, 0] })
        (prelaunch_terminal samplePlatform
          (sampleEnv USB_STATUS.USB_OK [255] true true true (fun _ => 0)) sampleHandles 7 2
          (sampleSt { checksum := 0, config_settings := [4, 0, 0, 0] })).1,
        e.is_flight_loop = false :=
  arming_refused_on_invalid_config samplePlatform
    (sampleEnv USB_STATUS.USB_OK [255] true true true (fun _ => 0)) sampleHandles 7 2
    (sampleSt { checksum := 0, config_settings := [4, 0, 0, 0] })
    (sampleGateSt { checksum := 0, config_settings := [4, 0, 0, 0] }) USB_STATUS.USB_OK
    (by decide) (by decide) (by decide)

theorem chute_continuity_drogue_open (pf : Platform) (env : Env) (h : Handles)
    (u : USB_STATUS) (s : St)
    (hdual : enabled_features_of pf s &&& pf.DUAL_DEPLOY_ENABLED ≠ 0)
    (hd : env.ign_drogue_cont s.trace = false) :
    chute_continuity pf env h u s =
      ({ s with trace := s.trace ++ [Event.ign_drogue_cont false, Event.buzzer_beep 3000,
          Event.error_fail_fast ERROR_CODE.ERROR_IGNITION_CONTINUITY_ERROR] },
        Res.fatal ERROR_CODE.ERROR_IGNITION_CONTINUITY_ERROR) := by
  unfold enabled_features_of at hdual
  unfold chute_continuity
  simp only [if_pos hdual, hd]
  simp [error_fail_fast, emit]

theorem chute_continuity_main_open (pf : Platform) (env : Env) (h : Handles)
    (u : USB_STATUS) (s : St)
    (hdual : enabled_features_of pf s &&& pf.DUAL_DEPLOY_ENABLED ≠ 0)
    (hd : env.ign_drogue_cont s.trace = true)
    (hm : env.ign_main_cont (s.trace ++ [Event.ign_drogue_cont true]) = false) :
    chute_continuity pf env h u s =
      ({ s with trace := s.trace ++ [Event.ign_drogue_cont true, Event.ign_main_cont false,
          Event.buzzer_beep 3000,
          Event.error_fail_fast ERROR_CODE.ERROR_IGNITION_CONTINUITY_ERROR] },
        Res.fatal ERROR_CODE.ERROR_IGNITION_CONTINUITY_ERROR) := by
  unfold enabled_features_of at hdual
  unfold chute_continuity
  simp only [if_pos hdual, hd, emit, hm]
  simp [error_fail_fast, emit]

theorem chute_continuity_closed (pf : Platform) (env : Env) (h : Handles)
    (u : USB_STATUS) (s : St)
    (hdual : enabled_features_of pf s &&& pf.DUAL_DEPLOY_ENABLED ≠ 0)
    (hd : env.ign_drogue_cont s.trace = true)
    (hm : env.ign_main_cont (s.trace ++ [Event.ign_drogue_cont true]) = true) :
    chute_continuity pf env h u s =
      call_flight_loop env h u
        (emit (emit s (Event.ign_drogue_cont true)) (Event.ign_main_cont true)) := by
  unfold enabled_features_of at hdual
  unfold chute_continuity
  simp only [if_pos hdual, hd, emit, hm]
  simp

/-- C8: when the command handler has returned, the ignition switch shows
continuity, no rejected flag is set and `DUAL_DEPLOY_ENABLED` is set: if
`ign_drogue_cont()` is false, or it is true and `ign_main_cont()` is false, the
gate calls `buzzer_beep( 3000 )`, then
`error_fail_fast( ERROR_IGNITION_CONTINUITY_ERROR )`, and `flight_loop` is not
called; if both are true the gate calls `flight_loop` with the dispatcher's
handles, calls `error_fail_fast` nowhere, and the cycle does not end in a
fatal error. -/
theorem arming_refused_on_missing_continuity (pf : Platform) (env : Env) (h : Handles)
    (fc : Nat) (fuel : Nat) (s s1 : St) (u : USB_STATUS)
    (hcp : command_phase pf env h fc s = (s1, Res.ret u))
    (hsw : env.ign_switch_cont s1.trace = true)
    (hv : enabled_features_of pf s1 &&& invalid_feature_flags pf = 0)
    (hdual : enabled_features_of pf s1 &&& pf.DUAL_DEPLOY_ENABLED ≠ 0) :
    (env.ign_drogue_cont (s1.trace ++ [Event.ign_switch_cont true]) = false →
      prelaunch_terminal pf env h fc fuel s =
        ({ s1 with trace := s1.trace ++ [Event.ign_switch_cont true, Event.ign_drogue_cont false,
            Event.buzzer_beep 3000,
            Event.error_fail_fast ERROR_CODE.ERROR_IGNITION_CONTINUITY_ERROR] },
          Res.fatal ERROR_CODE.ERROR_IGNITION_CONTINUITY_ERROR)) ∧
    (env.ign_drogue_cont (s1.trace ++ [Event.ign_switch_cont true]) = true →
      env.ign_main_cont (s1.trace ++ [Event.ign_switch_cont true, Event.ign_drogue_cont true])
        = false →
      prelaunch_terminal pf env h fc fuel s =
        ({ s1 with trace := s1.trace ++ [Event.ign_switch_cont true, Event.ign_drogue_cont true,
            Event.ign_main_cont false, Event.buzzer_beep 3000,
            Event.error_fail_fast ERROR_CODE.ERROR_IGNITION_CONTINUITY_ERROR] },
          Res.fatal ERROR_CODE.ERROR_IGNITION_CONTINUITY_ERROR)) ∧
    (env.ign_drogue_cont (s1.trace ++ [Event.ign_switch_cont true]) = true →
      env.ign_main_cont (s1.trace ++ [Event.ign_switch_cont true, Event.ign_drogue_cont true])
        = true →
      (prelaunch_terminal pf env h fc fuel s).1.trace =
        s1.trace ++ [Event.ign_switch_cont true, Event.ign_drogue_cont true,
          Event.ign_main_cont true,
          Event.flight_loop h.gps_mesg_byte h.flash_status h.flash_handle h.flash_address
            h.sensor_status] ∧
      ((prelaunch_terminal pf env h fc fuel s).2 = Res.ret u ∨
        (prelaunch_terminal pf env h fc fuel s).2 = Res.noreturn)) := by
  rw [prelaunch_terminal_of_command_ret pf env h fc fuel s s1 u hcp,
    arming_gate_valid pf env h fuel u s1 hsw hv]
  have hdual2 : enabled_features_of pf (emit s1 (Event.ign_switch_cont true))
      &&& pf.DUAL_DEPLOY_ENABLED ≠ 0 := hdual
  refine ⟨fun hd => ?_, fun hd hm => ?_, fun hd hm => ?_⟩
  · rw [chute_continuity_drogue_open pf env h u _ hdual2 hd]
    simp [emit]
  · rw [chute_continuity_main_open pf env h u _ hdual2 hd (by simpa [emit] using hm)]
    simp [emit]
  · rw [chute_continuity_closed pf env h u _ hdual2 hd (by simpa [emit] using hm)]
    refine ⟨?_, ?_⟩
    · simp [call_flight_loop_trace, emit, flight_loop_event]
    · exact call_flight_loop_result env h u _

/-- Witness for C8: the sample cycle with dual deploy enabled, continuity on
the switch, none on the drogue channel. -/
theorem arming_refused_on_missing_continuity_witness :
    prelaunch_terminal samplePlatform
        (sampleEnv USB_STATUS.USB_OK [255] true false true (fun _ => 0)) sampleHandles 7 0
        (sampleSt { checksum := 0, config_settings := [1, 0, 0, 0] }) =
      ({ sampleGateSt { checksum := 0, config_settings := [1, 0, 0, 0] } with
          trace := (sampleGateSt { checksum := 0, config_settings := [1, 0, 0, 0] }).trace ++
            [Event.ign_switch_cont true, Event.ign_drogue_cont false, Event.buzzer_beep 3000,
              Event.error_fail_fast ERROR_CODE.ERROR_IGNITION_CONTINUITY_ERROR] },
        Res.fatal ERROR_CODE.ERROR_IGNITION_CONTINUITY_ERROR) :=
  (arming_refused_on_missing_continuity samplePlatform
    (sampleEnv USB_STATUS.USB_OK [255] true false true (fun _ => 0)) sampleHandles 7 0
    (sampleSt { checksum := 0, config_settings := [1, 0, 0, 0] })
    (sampleGateSt { checksum := 0, config_settings := [1, 0, 0, 0] }) USB_STATUS.USB_OK
    (by decide) (by decide) (by decide) (by decide)).1 (by decide)

/-! ## A failed opcode receive -/

/-- C9 (counterexample): a host is attached, the receive of the opcode byte
returns `USB_FAIL`, the ignition switch is not asserted; the first cycle of
`pre_launch_loop` runs no command handler, and the supervisor then calls
`error_fail_fast( ERROR_USB_UART_ERROR )` instead of running the next cycle. -/
theorem opcode_fail_escalated_by_supervisor :
    pre_launch_loop samplePlatform
        (sampleEnv USB_STATUS.USB_FAIL [0] false false false (fun _ => 0)) sampleHandles 7 5
        (sampleSt { checksum := 0, config_settings := [0, 0, 0, 0] }) =
      ({ sampleSt { checksum := 0, config_settings := [0, 0, 0, 0] } with
          trace := [Event.led_set_color LED_COLOR.LED_GREEN, Event.buzzer_multi_beeps 50 50 2,
            Event.led_set_color LED_COLOR.LED_GREEN, Event.usb_detect true,
            Event.usb_receive 1 USB_STATUS.USB_FAIL [0], Event.ign_switch_cont false,
            Event.error_fail_fast ERROR_CODE.ERROR_USB_UART_ERROR] },
        Res.fatal ERROR_CODE.ERROR_USB_UART_ERROR) := by
  decide

/-- C9 (amended): in a cycle where `usb_detect()` is true and the receive of
the opcode byte returns `USB_FAIL`, the command handler makes no further call
and returns `USB_FAIL`; with the ignition switch not asserted the dispatcher
reads the switch, raises no fatal error and returns `USB_FAIL`; the idle
supervisor then calls `error_fail_fast( ERROR_USB_UART_ERROR )`. -/
theorem failed_opcode_receive (pf : Platform) (env : Env) (h : Handles) (fc : Nat)
    (fuel : Nat) (s : St) (buf : List Nat)
    (hidle : s.flight_computer_state = FLIGHT_COMP_STATE_TYPE.FC_STATE_IDLE)
    (hdet : env.usb_detect (s.trace ++ [Event.led_set_color LED_COLOR.LED_GREEN]) = true)
    (hrx : env.usb_receive
      (s.trace ++ [Event.led_set_color LED_COLOR.LED_GREEN, Event.usb_detect true]) 1
        = (USB_STATUS.USB_FAIL, buf))
    (hsw : env.ign_switch_cont
      (s.trace ++ [Event.led_set_color LED_COLOR.LED_GREEN, Event.usb_detect true,
        Event.usb_receive 1 USB_STATUS.USB_FAIL buf]) = false) :
    command_phase pf env h fc s =
        ({ s with trace := s.trace ++ [Event.led_set_color LED_COLOR.LED_GREEN,
            Event.usb_detect true, Event.usb_receive 1 USB_STATUS.USB_FAIL buf] },
          Res.ret USB_STATUS.USB_FAIL) ∧
      prelaunch_terminal pf env h fc fuel s =
        ({ s with trace := s.trace ++ [Event.led_set_color LED_COLOR.LED_GREEN,
            Event.usb_detect true, Event.usb_receive 1 USB_STATUS.USB_FAIL buf,
            Event.ign_switch_cont false] },
          Res.ret USB_STATUS.USB_FAIL) ∧
      idle_loop pf env h fc (fuel + 1) s =
        ({ s with trace := s.trace ++ [Event.led_set_color LED_COLOR.LED_GREEN,
            Event.usb_detect true, Event.usb_receive 1 USB_STATUS.USB_FAIL buf,
            Event.ign_switch_cont false,
            Event.error_fail_fast ERROR_CODE.ERROR_USB_UART_ERROR] },
          Res.fatal ERROR_CODE.ERROR_USB_UART_ERROR) := by
  have hcp : command_phase pf env h fc s =
      ({ s with trace := s.trace ++ [Event.led_set_color LED_COLOR.LED_GREEN,
          Event.usb_detect true, Event.usb_receive 1 USB_STATUS.USB_FAIL buf] },
        Res.ret USB_STATUS.USB_FAIL) := by
    unfold command_phase
    simp [emit, hdet, hrx]
  have hpt : prelaunch_terminal pf env h fc fuel s =
      ({ s with trace := s.trace ++ [Event.led_set_color LED_COLOR.LED_GREEN,
          Event.usb_detect true, Event.usb_receive 1 USB_STATUS.USB_FAIL buf,
          Event.ign_switch_cont false] },
        Res.ret USB_STATUS.USB_FAIL) := by
    rw [prelaunch_terminal_of_command_ret pf env h fc fuel s _ _ hcp,
      arming_gate_off pf env h fuel _ _ hsw]
    simp [emit]
  refine ⟨hcp, hpt, ?_⟩
  simp [idle_loop, hidle, hpt, error_fail_fast, emit]

/-- Witness for C9 (amended): the cycle of the counterexample. -/
theorem failed_opcode_receive_witness :
    idle_loop samplePlatform
        (sampleEnv USB_STATUS.USB_FAIL [0] false false false (fun _ => 0)) sampleHandles 7 (0 + 1)
        (sampleSt { checksum := 0, config_settings := [0, 0, 0, 0] }) =
      ({ sampleSt { checksum := 0, config_settings := [0, 0, 0, 0] } with
          trace := (sampleSt { checksum := 0, config_settings := [0, 0, 0, 0] }).trace ++
            [Event.led_set_color LED_COLOR.LED_GREEN,
            Event.usb_detect true, Event.usb_receive 1 USB_STATUS.USB_FAIL [0],
            Event.ign_switch_cont false,
            Event.error_fail_fast ERROR_CODE.ERROR_USB_UART_ERROR] },
        Res.fatal ERROR_CODE.ERROR_USB_UART_ERROR) :=
  (failed_opcode_receive samplePlatform
    (sampleEnv USB_STATUS.USB_FAIL [0] false false false (fun _ => 0)) sampleHandles 7 0
    (sampleSt { checksum := 0, config_settings := [0, 0, 0, 0] }) [0]
    (by decide) (by decide) (by decide) (by decide)).2.2

/-! ## Upload persists what arrived -/

/-- C10: for every receive status and every received buffer of
`4 + sizeof( CONFIG_SETTINGS_TYPE )` bytes, UPLOAD puts the payload bytes into
the in-RAM preset, then calls `write_preset` exactly once, on the updated
record, and returns the status `write_preset` answered; in the `PRESET_OP`
case of the dispatcher the calls are the receive of the subcommand, the calls
of UPLOAD, and then the transmit of the status UPLOAD returned. -/
theorem upload_persists_what_arrived (pf : Platform) (env : Env) (h : Handles) :
    (∀ (s : St) (status : USB_STATUS) (buf : List Nat),
      env.usb_receive s.trace (pf.sizeof_CONFIG_SETTINGS_TYPE + 4) = (status, buf) →
      buf.length = 4 + pf.sizeof_CONFIG_SETTINGS_TYPE →
      (preset_cmd_execute pf env h 1 s).1.preset_data.config_settings = buf.drop 4 ∧
      new_events s (preset_cmd_execute pf env h 1 s).1 =
        [Event.usb_receive (pf.sizeof_CONFIG_SETTINGS_TYPE + 4) status buf,
          Event.write_preset h.flash_handle (preset_cmd_execute pf env h 1 s).1.preset_data
            h.flash_address
            (env.write_preset
              (s.trace ++ [Event.usb_receive (pf.sizeof_CONFIG_SETTINGS_TYPE + 4) status buf])
              (preset_cmd_execute pf env h 1 s).1.preset_data s.flash_address).1] ∧
      (preset_cmd_execute pf env h 1 s).2 =
        Res.ret (env.write_preset
          (s.trace ++ [Event.usb_receive (pf.sizeof_CONFIG_SETTINGS_TYPE + 4) status buf])
          (preset_cmd_execute pf env h 1 s).1.preset_data s.flash_address).1) ∧
    (∀ (s : St) (sub : List Nat),
      env.usb_receive s.trace 1 = (USB_STATUS.USB_OK, sub) → sub.headD 0 = 1 →
      ∃ (st : FLASH_STATUS) (t : USB_STATUS),
        (preset_cmd_execute pf env h 1 (emit s (Event.usb_receive 1 USB_STATUS.USB_OK sub))).2
          = Res.ret st ∧
        new_events s (preset_op pf env h s).1 =
          Event.usb_receive 1 USB_STATUS.USB_OK sub ::
            new_events (emit s (Event.usb_receive 1 USB_STATUS.USB_OK sub))
              (preset_cmd_execute pf env h 1
                (emit s (Event.usb_receive 1 USB_STATUS.USB_OK sub))).1 ++
          [Event.usb_transmit (TxBuf.flash_status_obj st) pf.sizeof_flash_status_ptr t] ++
          (if t ≠ USB_STATUS.USB_OK then
            [Event.error_fail_fast ERROR_CODE.ERROR_FLASH_CMD_ERROR] else [])) := by
  constructor
  · intro s status buf hrx hlen
    have hpay : (buf.drop 4).take pf.sizeof_CONFIG_SETTINGS_TYPE = buf.drop 4 := by
      apply List.take_of_length_le
      simp [hlen]
    rw [preset_upload_eq]
    simp only [hrx, hpay, write_preset, emit, new_events]
    refine ⟨?_, ?_, ?_⟩
    · split <;> rfl
    · simp
    · trivial
  · intro s sub hrx hsub
    have hret : ∃ st, (preset_cmd_execute pf env h 1
        (emit s (Event.usb_receive 1 USB_STATUS.USB_OK sub))).2 = Res.ret st := by
      rw [preset_upload_eq]
      exact ⟨_, rfl⟩
    obtain ⟨evs, hevs, -⟩ := preset_cmd_execute_events pf env h 1
      (emit s (Event.usb_receive 1 USB_STATUS.USB_OK sub))
    obtain ⟨st, hst⟩ := hret
    rw [new_events_append _ _ evs hevs]
    unfold preset_op
    simp only [hrx, hsub, if_true]
    generalize preset_cmd_execute pf env h 1
      (emit s (Event.usb_receive 1 USB_STATUS.USB_OK sub)) = q at hevs hst
    obtain ⟨s2, r⟩ := q
    simp only at hevs hst
    subst hst
    refine ⟨st, env.usb_transmit s2.trace (TxBuf.flash_status_obj st) pf.sizeof_flash_status_ptr,
      rfl, ?_⟩
    simp only [transmit_flash_status]
    split <;> simp [new_events, emit, error_fail_fast, hevs]

/-- Witness for C10: an upload whose receive returned `USB_FAIL` and whose
checksum does not match; payload `00 00 00 00`. -/
theorem upload_persists_what_arrived_witness :
    (preset_cmd_execute samplePlatform
      (sampleEnv USB_STATUS.USB_FAIL [239, 190, 173, 222, 0, 0, 0, 0] false false false
        (fun _ => 0)) sampleHandles 1
      (sampleSt { checksum := 7, config_settings := [1, 0, 0, 0] })).1.preset_data.config_settings
      = [0, 0, 0, 0] ∧
    new_events (sampleSt { checksum := 7, config_settings := [1, 0, 0, 0] })
      (preset_cmd_execute samplePlatform
        (sampleEnv USB_STATUS.USB_FAIL [239, 190, 173, 222, 0, 0, 0, 0] false false false
          (fun _ => 0)) sampleHandles 1
        (sampleSt { checksum := 7, config_settings := [1, 0, 0, 0] })).1 =
      [Event.usb_receive 8 USB_STATUS.USB_FAIL [239, 190, 173, 222, 0, 0, 0, 0],
        Event.write_preset 0x200 { checksum := 0, config_settings := [0, 0, 0, 0] } 0x300
          FLASH_STATUS.FLASH_OK] ∧
    (preset_cmd_execute samplePlatform
      (sampleEnv USB_STATUS.USB_FAIL [239, 190, 173, 222, 0, 0, 0, 0] false false false
        (fun _ => 0)) sampleHandles 1
      (sampleSt { checksum := 7, config_settings := [1, 0, 0, 0] })).2
      = Res.ret FLASH_STATUS.FLASH_OK :=
  (upload_persists_what_arrived samplePlatform
    (sampleEnv USB_STATUS.USB_FAIL [239, 190, 173, 222, 0, 0, 0, 0] false false false
      (fun _ => 0)) sampleHandles).1
    (sampleSt { checksum := 7, config_settings := [1, 0, 0, 0] }) USB_STATUS.USB_FAIL
    [239, 190, 173, 222, 0, 0, 0, 0] (by decide) (by decide)

/-! ## Entry into the command switch -/

theorem command_phase_no_host (pf : Platform) (env : Env) (h : Handles) (fc : Nat) (s : St)
    (hdet : env.usb_detect (s.trace ++ [Event.led_set_color LED_COLOR.LED_GREEN]) = false) :
    command_phase pf env h fc s =
      ({ s with trace := s.trace ++ [Event.led_set_color LED_COLOR.LED_GREEN,
          Event.usb_detect false] }, Res.ret USB_STATUS.USB_OK) := by
  unfold command_phase
  simp [emit, hdet]

theorem command_phase_rx_not_ok (pf : Platform) (env : Env) (h : Handles) (fc : Nat) (s : St)
    (st : USB_STATUS) (buf : List Nat)
    (hdet : env.usb_detect (s.trace ++ [Event.led_set_color LED_COLOR.LED_GREEN]) = true)
    (hrx : env.usb_receive
      (s.trace ++ [Event.led_set_color LED_COLOR.LED_GREEN, Event.usb_detect true]) 1 = (st, buf))
    (hst : st ≠ USB_STATUS.USB_OK) :
    command_phase pf env h fc s =
      ({ s with trace := s.trace ++ [Event.led_set_color LED_COLOR.LED_GREEN,
          Event.usb_detect true, Event.usb_receive 1 st buf] }, Res.ret st) := by
  unfold command_phase
  simp [emit, hdet, hrx, hst]

theorem command_phase_switch (pf : Platform) (env : Env) (h : Handles) (fc : Nat) (s : St)
    (buf : List Nat)
    (hdet : env.usb_detect (s.trace ++ [Event.led_set_color LED_COLOR.LED_GREEN]) = true)
    (hrx : env.usb_receive
      (s.trace ++ [Event.led_set_color LED_COLOR.LED_GREEN, Event.usb_detect true]) 1
        = (USB_STATUS.USB_OK, buf)) :
    command_phase pf env h fc s =
      if buf.headD 0 = pf.CONNECT_OP then
        connect_op env fc USB_STATUS.USB_OK (opcode_received s buf)
      else if buf.headD 0 = pf.SENSOR_OP then
        sensor_op env USB_STATUS.USB_OK (opcode_received s buf)
      else if buf.headD 0 = pf.FIN_OP then fin_op env h (opcode_received s buf)
      else if buf.headD 0 = pf.FLASH_OP then flash_op pf env h (opcode_received s buf)
      else if buf.headD 0 = pf.PRESET_OP then preset_op pf env h (opcode_received s buf)
      else (opcode_received s buf, Res.ret USB_STATUS.USB_OK) := by
  have hdet2 : env.usb_detect (emit s (Event.led_set_color LED_COLOR.LED_GREEN)).trace = true :=
    hdet
  have hrx2 : env.usb_receive (emit (emit s (Event.led_set_color LED_COLOR.LED_GREEN))
      (Event.usb_detect true)).trace 1 = (USB_STATUS.USB_OK, buf) := by
    simpa [emit] using hrx
  unfold command_phase opcode_received
  simp only [hdet2, hrx2, if_true]

theorem opcode_received_trace (s : St) (buf : List Nat) :
    (opcode_received s buf).trace = s.trace ++ [Event.led_set_color LED_COLOR.LED_GREEN,
      Event.usb_detect true, Event.usb_receive 1 USB_STATUS.USB_OK buf] := by
  simp [opcode_received, emit]

/-! ## Download -/

theorem command_phase_flash_op (pf : Platform) (env : Env) (h : Handles) (fc : Nat) (s : St)
    (buf : List Nat) (hd : opcodes_distinct pf)
    (hdet : env.usb_detect (s.trace ++ [Event.led_set_color LED_COLOR.LED_GREEN]) = true)
    (hrx : env.usb_receive
      (s.trace ++ [Event.led_set_color LED_COLOR.LED_GREEN, Event.usb_detect true]) 1
        = (USB_STATUS.USB_OK, buf))
    (hop : buf.headD 0 = pf.FLASH_OP) :
    command_phase pf env h fc s = flash_op pf env h (opcode_received s buf) := by
  rw [command_phase_switch pf env h fc s buf hdet hrx, hop]
  simp only [opcodes_distinct, List.nodup_cons, List.mem_cons, List.mem_singleton,
    List.not_mem_nil, not_or, List.nodup_nil, or_false, and_true, not_false_eq_true] at hd
  obtain ⟨⟨h12, h13, h14, h15⟩, ⟨h23, h24, h25⟩, ⟨h34, h35⟩, h45⟩ := hd
  rw [if_neg (Ne.symm h14), if_neg (Ne.symm h24), if_neg (Ne.symm h34), if_pos rfl]

theorem command_phase_preset_op (pf : Platform) (env : Env) (h : Handles) (fc : Nat) (s : St)
    (buf : List Nat) (hd : opcodes_distinct pf)
    (hdet : env.usb_detect (s.trace ++ [Event.led_set_color LED_COLOR.LED_GREEN]) = true)
    (hrx : env.usb_receive
      (s.trace ++ [Event.led_set_color LED_COLOR.LED_GREEN, Event.usb_detect true]) 1
        = (USB_STATUS.USB_OK, buf))
    (hop : buf.headD 0 = pf.PRESET_OP) :
    command_phase pf env h fc s = preset_op pf env h (opcode_received s buf) := by
  rw [command_phase_switch pf env h fc s buf hdet hrx, hop]
  simp only [opcodes_distinct, List.nodup_cons, List.mem_cons, List.mem_singleton,
    List.not_mem_nil, not_or, List.nodup_nil, or_false, and_true, not_false_eq_true] at hd
  obtain ⟨⟨h12, h13, h14, h15⟩, ⟨h23, h24, h25⟩, ⟨h34, h35⟩, h45⟩ := hd
  rw [if_neg (Ne.symm h15), if_neg (Ne.symm h25), if_neg (Ne.symm h35), if_neg (Ne.symm h45),
    if_pos rfl]

theorem command_phase_fin_op (pf : Platform) (env : Env) (h : Handles) (fc : Nat) (s : St)
    (buf : List Nat) (hd : opcodes_distinct pf)
    (hdet : env.usb_detect (s.trace ++ [Event.led_set_color LED_COLOR.LED_GREEN]) = true)
    (hrx : env.usb_receive
      (s.trace ++ [Event.led_set_color LED_COLOR.LED_GREEN, Event.usb_detect true]) 1
        = (USB_STATUS.USB_OK, buf))
    (hop : buf.headD 0 = pf.FIN_OP) :
    command_phase pf env h fc s = fin_op env h (opcode_received s buf) := by
  rw [command_phase_switch pf env h fc s buf hdet hrx, hop]
  simp only [opcodes_distinct, List.nodup_cons, List.mem_cons, List.mem_singleton,
    List.not_mem_nil, not_or, List.nodup_nil, or_false, and_true, not_false_eq_true] at hd
  obtain ⟨⟨h12, h13, h14, h15⟩, ⟨h23, h24, h25⟩, ⟨h34, h35⟩, h45⟩ := hd
  rw [if_neg (Ne.symm h13), if_neg (Ne.symm h23), if_pos rfl]

theorem transmit_flash_status_eq (pf : Platform) (env : Env) (s : St) :
    transmit_flash_status pf env s =
      if env.usb_transmit s.trace (TxBuf.flash_status_obj s.flash_status)
          pf.sizeof_flash_status_ptr ≠ USB_STATUS.USB_OK then
        ({ s with trace := s.trace ++ [Event.usb_transmit (TxBuf.flash_status_obj s.flash_status)
            pf.sizeof_flash_status_ptr (env.usb_transmit s.trace
              (TxBuf.flash_status_obj s.flash_status) pf.sizeof_flash_status_ptr),
            Event.error_fail_fast ERROR_CODE.ERROR_FLASH_CMD_ERROR] },
          Res.fatal ERROR_CODE.ERROR_FLASH_CMD_ERROR)
      else
        ({ s with trace := s.trace ++ [Event.usb_transmit (TxBuf.flash_status_obj s.flash_status)
            pf.sizeof_flash_status_ptr USB_STATUS.USB_OK] }, Res.ret USB_STATUS.USB_OK) := by
  unfold transmit_flash_status
  simp only []
  split
  · simp [error_fail_fast, emit]
  · rename_i hok
    have hok2 := not_not.1 hok
    simp [emit, hok2]

theorem preset_op_run (pf : Platform) (env : Env) (h : Handles) (s : St) (sub : List Nat)
    (hrx : env.usb_receive s.trace 1 = (USB_STATUS.USB_OK, sub)) :
    preset_op pf env h s =
      match preset_cmd_execute pf env h (sub.headD 0)
        (emit s (Event.usb_receive 1 USB_STATUS.USB_OK sub)) with
      | (s2, Res.ret fs) => transmit_flash_status pf env { s2 with flash_status := fs }
      | (s2, r) => (s2, r.cast USB_STATUS.USB_OK) := by
  unfold preset_op
  simp only [hrx, if_true]

theorem flash_op_run (pf : Platform) (env : Env) (h : Handles) (s : St) (sub : List Nat)
    (hrx : env.usb_receive s.trace 1 = (USB_STATUS.USB_OK, sub)) :
    flash_op pf env h s =
      transmit_flash_status pf env
        { s with
          flash_status := env.flash_cmd_execute
            (s.trace ++ [Event.usb_receive 1 USB_STATUS.USB_OK sub]) (sub.headD 0),
          trace := s.trace ++ [Event.usb_receive 1 USB_STATUS.USB_OK sub,
            Event.flash_cmd_execute (sub.headD 0) h.flash_handle
              (env.flash_cmd_execute (s.trace ++ [Event.usb_receive 1 USB_STATUS.USB_OK sub])
                (sub.headD 0))] } := by
  unfold flash_op
  simp [hrx, emit]

theorem lockout_events_no_transmit (n : Nat) :
    (lockout_events n).filter Event.is_usb_transmit = [] := by
  induction n with
  | zero => rfl
  | succ n ih => simp [lockout_events, Event.is_usb_transmit, ih]

theorem arming_gate_trace (pf : Platform) (env : Env) (h : Handles) (fuel : Nat)
    (u : USB_STATUS) (s : St) :
    (arming_gate pf env h fuel u s).1.trace = s.trace ++ gate_events pf env h fuel s := by
  unfold gate_events
  cases hsw : env.ign_switch_cont s.trace
  · rw [arming_gate_off pf env h fuel u s hsw]
    simp [emit]
  · by_cases hinv : enabled_features_of pf s &&& invalid_feature_flags pf = 0
    · rw [arming_gate_valid pf env h fuel u s hsw hinv, chute_continuity_trace]
      simp [emit, hinv]
    · rw [arming_gate_invalid pf env h fuel u s hsw hinv]
      simp [hinv]

/-- The arming gate transmits nothing to the host. -/
theorem gate_events_no_transmit (pf : Platform) (env : Env) (h : Handles) (fuel : Nat)
    (s : St) : (gate_events pf env h fuel s).filter Event.is_usb_transmit = [] := by
  unfold gate_events chute_events
  repeat' split
  all_goals simp [Event.is_usb_transmit, lockout_events_no_transmit, flight_loop_event]

/-! ## The PRESET_OP case with DOWNLOAD and VERIFY -/

theorem preset_op_download (pf : Platform) (env : Env) (h : Handles) (s : St) (sub : List Nat)
    (t1 t2 : USB_STATUS)
    (hrx : env.usb_receive s.trace 1 = (USB_STATUS.USB_OK, sub)) (h2 : sub.headD 0 = 2)
    (ht1 : env.usb_transmit (s.trace ++ [Event.usb_receive 1 USB_STATUS.USB_OK sub])
      (TxBuf.bytes s.preset_data.bytes) (sizeof_PRESET_DATA pf) = t1)
    (ht2 : env.usb_transmit (s.trace ++ [Event.usb_receive 1 USB_STATUS.USB_OK sub,
        Event.usb_transmit (TxBuf.bytes s.preset_data.bytes) (sizeof_PRESET_DATA pf) t1])
      (TxBuf.flash_status_obj (if t1 ≠ USB_STATUS.USB_OK then FLASH_STATUS.FLASH_FAIL
        else FLASH_STATUS.FLASH_OK)) pf.sizeof_flash_status_ptr = t2) :
    (preset_op pf env h s).1.trace = s.trace ++
      [Event.usb_receive 1 USB_STATUS.USB_OK sub,
        Event.usb_transmit (TxBuf.bytes s.preset_data.bytes) (sizeof_PRESET_DATA pf) t1,
        Event.usb_transmit (TxBuf.flash_status_obj (if t1 ≠ USB_STATUS.USB_OK then
          FLASH_STATUS.FLASH_FAIL else FLASH_STATUS.FLASH_OK)) pf.sizeof_flash_status_ptr t2] ++
      (if t2 ≠ USB_STATUS.USB_OK then [Event.error_fail_fast ERROR_CODE.ERROR_FLASH_CMD_ERROR]
        else []) := by
  have ht1b : env.usb_transmit (emit s (Event.usb_receive 1 USB_STATUS.USB_OK sub)).trace
      (TxBuf.bytes (emit s (Event.usb_receive 1 USB_STATUS.USB_OK sub)).preset_data.bytes)
      (sizeof_PRESET_DATA pf) = t1 := ht1
  rw [preset_op_run pf env h s sub hrx, h2, preset_download_eq]
  simp only [ht1b]
  rw [transmit_flash_status_eq]
  simp only [emit, List.append_assoc, List.singleton_append, List.cons_append, List.nil_append,
    ht2]
  split <;> simp_all

theorem preset_op_verify (pf : Platform) (env : Env) (h : Handles) (s : St) (sub : List Nat)
    (r : Nat) (t1 t2 : USB_STATUS)
    (hrx : env.usb_receive s.trace 1 = (USB_STATUS.USB_OK, sub)) (h3 : sub.headD 0 = 3)
    (hr : (if pf.crc32 (verify_region pf env (emit s (Event.usb_receive 1 USB_STATUS.USB_OK sub)))
      % 2 ^ 32 = s.preset_data.checksum then 1 else 0) = r)
    (ht1 : env.usb_transmit (s.trace ++ [Event.usb_receive 1 USB_STATUS.USB_OK sub])
      (TxBuf.bytes [r]) 1 = t1)
    (ht2 : env.usb_transmit (s.trace ++ [Event.usb_receive 1 USB_STATUS.USB_OK sub,
        Event.usb_transmit (TxBuf.bytes [r]) 1 t1])
      (TxBuf.flash_status_obj FLASH_STATUS.FLASH_OK) pf.sizeof_flash_status_ptr = t2) :
    (preset_op pf env h s).1.trace = s.trace ++
      [Event.usb_receive 1 USB_STATUS.USB_OK sub, Event.usb_transmit (TxBuf.bytes [r]) 1 t1] ++
      (if t1 ≠ USB_STATUS.USB_OK then [Event.error_fail_fast ERROR_CODE.ERROR_USB_UART_ERROR]
       else Event.usb_transmit (TxBuf.flash_status_obj FLASH_STATUS.FLASH_OK)
          pf.sizeof_flash_status_ptr t2 ::
        (if t2 ≠ USB_STATUS.USB_OK then [Event.error_fail_fast ERROR_CODE.ERROR_FLASH_CMD_ERROR]
          else [])) := by
  have hrb : (if pf.crc32 (verify_region pf env
      (emit s (Event.usb_receive 1 USB_STATUS.USB_OK sub))) % 2 ^ 32
      = (emit s (Event.usb_receive 1 USB_STATUS.USB_OK sub)).preset_data.checksum
      then 1 else 0) = r := hr
  have ht1b : env.usb_transmit (emit s (Event.usb_receive 1 USB_STATUS.USB_OK sub)).trace
      (TxBuf.bytes [r]) 1 = t1 := ht1
  rw [preset_op_run pf env h s sub hrx, h3]
  unfold preset_cmd_execute
  simp only [show ¬ ((3 : Nat) = 1) by decide, show ¬ ((3 : Nat) = 2) by decide, if_false,
    if_true, hrb, ht1b]
  by_cases hok : t1 = USB_STATUS.USB_OK
  · subst hok
    simp only [ne_eq, not_true_eq_false, if_false]
    rw [transmit_flash_status_eq]
    simp only [emit, List.append_assoc, List.singleton_append, List.cons_append,
      List.nil_append, ht2]
    split <;> simp_all
  · simp [hok, error_fail_fast, emit, Res.cast]

/-- The transmits of a dispatcher cycle are those of its command handler. -/
theorem prelaunch_terminal_transmits (pf : Platform) (env : Env) (h : Handles) (fc : Nat)
    (fuel : Nat) (s : St) (evs : List Event)
    (hcp : (command_phase pf env h fc s).1.trace = s.trace ++ evs) :
    (new_events s (prelaunch_terminal pf env h fc fuel s).1).filter Event.is_usb_transmit =
      evs.filter Event.is_usb_transmit := by
  unfold prelaunch_terminal
  generalize command_phase pf env h fc s = q at hcp
  obtain ⟨s1, r⟩ := q
  simp only at hcp
  cases r with
  | ret u =>
    simp only []
    rw [new_events_append s _ (evs ++ gate_events pf env h fuel s1)
      (by rw [arming_gate_trace, hcp, List.append_assoc])]
    rw [List.filter_append, gate_events_no_transmit, List.append_nil]
  | fatal e => simp only []; rw [new_events_append s s1 evs hcp]
  | noreturn => simp only []; rw [new_events_append s s1 evs hcp]
  | timeout => simp only []; rw [new_events_append s s1 evs hcp]

/-- C12 (counterexample): on the sample platform the host sends `PRESET_OP`,
DOWNLOAD; the cycle transmits the eight bytes of the in-RAM preset and then
`*flash_status` with length `sizeof( flash_status )`.  With VERIFY it
transmits the result byte and then `*flash_status`. -/
theorem preset_download_cycle_echoes_status :
    (new_events (sampleSt { checksum := 558161692, config_settings := [0, 0, 0, 0] })
      (prelaunch_terminal samplePlatform
        (scriptEnv [(USB_STATUS.USB_OK, [0x24]), (USB_STATUS.USB_OK, [2])] USB_STATUS.USB_OK
          FLASH_STATUS.FLASH_OK USB_STATUS.USB_OK false) sampleHandles 7 0
        (sampleSt { checksum := 558161692, config_settings := [0, 0, 0, 0] })).1).filter
        Event.is_usb_transmit
      = [Event.usb_transmit (TxBuf.bytes [28, 223, 68, 33, 0, 0, 0, 0]) 8 USB_STATUS.USB_OK,
         Event.usb_transmit (TxBuf.flash_status_obj FLASH_STATUS.FLASH_OK) 4
           USB_STATUS.USB_OK] ∧
    (new_events (sampleSt { checksum := 558161692, config_settings := [0, 0, 0, 0] })
      (prelaunch_terminal samplePlatform
        (scriptEnv [(USB_STATUS.USB_OK, [0x24]), (USB_STATUS.USB_OK, [3])] USB_STATUS.USB_OK
          FLASH_STATUS.FLASH_OK USB_STATUS.USB_OK false) sampleHandles 7 0
        (sampleSt { checksum := 558161692, config_settings := [0, 0, 0, 0] })).1).filter
        Event.is_usb_transmit
      = [Event.usb_transmit (TxBuf.bytes [1]) 1 USB_STATUS.USB_OK,
         Event.usb_transmit (TxBuf.flash_status_obj FLASH_STATUS.FLASH_OK) 4
           USB_STATUS.USB_OK] := by
  decide

/-- C12 (amended): in a cycle that processes `PRESET_OP` with DOWNLOAD the
transmits are the `4 + K` bytes of the in-RAM preset followed by one transmit
of `*flash_status`, holding the status DOWNLOAD returned; with VERIFY they are
the one result byte (0 or 1), followed, when that transmit succeeded, by one
transmit of `*flash_status` holding `FLASH_OK`.  The length of the status
transmit is not part of this statement. -/
theorem preset_op_download_verify_response (pf : Platform) (env : Env) (h : Handles)
    (fc : Nat) (fuel : Nat) (s : St) (buf sub : List Nat) (hd : opcodes_distinct pf)
    (hdet : env.usb_detect (s.trace ++ [Event.led_set_color LED_COLOR.LED_GREEN]) = true)
    (hrx : env.usb_receive
      (s.trace ++ [Event.led_set_color LED_COLOR.LED_GREEN, Event.usb_detect true]) 1
        = (USB_STATUS.USB_OK, buf))
    (hop : buf.headD 0 = pf.PRESET_OP)
    (hsub : env.usb_receive
      (s.trace ++ [Event.led_set_color LED_COLOR.LED_GREEN, Event.usb_detect true,
        Event.usb_receive 1 USB_STATUS.USB_OK buf]) 1 = (USB_STATUS.USB_OK, sub)) :
    (sub.headD 0 = 2 → ∃ n t1 t2,
      (new_events s (prelaunch_terminal pf env h fc fuel s).1).filter Event.is_usb_transmit =
        [Event.usb_transmit
          (TxBuf.bytes (le_bytes32 s.preset_data.checksum ++ s.preset_data.config_settings))
          (4 + pf.sizeof_CONFIG_SETTINGS_TYPE) t1,
         Event.usb_transmit (TxBuf.flash_status_obj (if t1 ≠ USB_STATUS.USB_OK then
           FLASH_STATUS.FLASH_FAIL else FLASH_STATUS.FLASH_OK)) n t2]) ∧
    (sub.headD 0 = 3 → ∃ r t1, (r = 0 ∨ r = 1) ∧
      ((t1 ≠ USB_STATUS.USB_OK ∧
        (new_events s (prelaunch_terminal pf env h fc fuel s).1).filter Event.is_usb_transmit =
          [Event.usb_transmit (TxBuf.bytes [r]) 1 t1]) ∨
       (t1 = USB_STATUS.USB_OK ∧ ∃ n t2,
        (new_events s (prelaunch_terminal pf env h fc fuel s).1).filter Event.is_usb_transmit =
          [Event.usb_transmit (TxBuf.bytes [r]) 1 t1,
           Event.usb_transmit (TxBuf.flash_status_obj FLASH_STATUS.FLASH_OK) n t2]))) := by
  have hcp := command_phase_preset_op pf env h fc s buf hd hdet hrx hop
  have hsub2 : env.usb_receive (opcode_received s buf).trace 1 = (USB_STATUS.USB_OK, sub) := by
    rw [opcode_received_trace]; exact hsub
  have hp : (opcode_received s buf).preset_data = s.preset_data := rfl
  constructor
  · intro h2
    obtain ⟨t1, ht1⟩ : ∃ t1, env.usb_transmit
        ((opcode_received s buf).trace ++ [Event.usb_receive 1 USB_STATUS.USB_OK sub])
        (TxBuf.bytes (opcode_received s buf).preset_data.bytes) (sizeof_PRESET_DATA pf) = t1 :=
      ⟨_, rfl⟩
    obtain ⟨t2, ht2⟩ : ∃ t2, env.usb_transmit
        ((opcode_received s buf).trace ++ [Event.usb_receive 1 USB_STATUS.USB_OK sub,
          Event.usb_transmit (TxBuf.bytes (opcode_received s buf).preset_data.bytes)
            (sizeof_PRESET_DATA pf) t1])
        (TxBuf.flash_status_obj (if t1 ≠ USB_STATUS.USB_OK then FLASH_STATUS.FLASH_FAIL
          else FLASH_STATUS.FLASH_OK)) pf.sizeof_flash_status_ptr = t2 := ⟨_, rfl⟩
    have htr := preset_op_download pf env h (opcode_received s buf) sub t1 t2 hsub2 h2 ht1 ht2
    rw [← hcp, opcode_received_trace, List.append_assoc, List.append_assoc] at htr
    refine ⟨pf.sizeof_flash_status_ptr, t1, t2, ?_⟩
    rw [prelaunch_terminal_transmits pf env h fc fuel s _ htr]
    simp only [hp, PRESET_DATA.bytes, sizeof_PRESET_DATA]
    split <;> simp [Event.is_usb_transmit]
  · intro h3
    obtain ⟨r, hr⟩ : ∃ r : Nat, (if pf.crc32 (verify_region pf env
        (emit (opcode_received s buf) (Event.usb_receive 1 USB_STATUS.USB_OK sub))) % 2 ^ 32
        = (opcode_received s buf).preset_data.checksum then 1 else 0) = r := ⟨_, rfl⟩
    obtain ⟨t1, ht1⟩ : ∃ t1, env.usb_transmit
        ((opcode_received s buf).trace ++ [Event.usb_receive 1 USB_STATUS.USB_OK sub])
        (TxBuf.bytes [r]) 1 = t1 := ⟨_, rfl⟩
    obtain ⟨t2, ht2⟩ : ∃ t2, env.usb_transmit
        ((opcode_received s buf).trace ++ [Event.usb_receive 1 USB_STATUS.USB_OK sub,
          Event.usb_transmit (TxBuf.bytes [r]) 1 t1])
        (TxBuf.flash_status_obj FLASH_STATUS.FLASH_OK) pf.sizeof_flash_status_ptr = t2 :=
      ⟨_, rfl⟩
    have htr := preset_op_verify pf env h (opcode_received s buf) sub r t1 t2 hsub2 h3 hr ht1 ht2
    rw [← hcp, opcode_received_trace, List.append_assoc, List.append_assoc] at htr
    have hfl := prelaunch_terminal_transmits pf env h fc fuel s _ htr
    refine ⟨r, t1, ?_, ?_⟩
    · rw [← hr]
      split
      · exact Or.inr rfl
      · exact Or.inl rfl
    · rw [hfl]
      by_cases hok : t1 = USB_STATUS.USB_OK
      · right
        refine ⟨hok, pf.sizeof_flash_status_ptr, t2, ?_⟩
        simp only [hok, ne_eq, not_true_eq_false, if_false]
        split <;> simp [Event.is_usb_transmit]
      · left
        refine ⟨hok, ?_⟩
        simp [hok, Event.is_usb_transmit]

/-- Witness for C12 (amended): the DOWNLOAD cycle of the counterexample. -/
theorem preset_op_download_verify_response_witness :
    ∃ n t1 t2,
      (new_events (sampleSt { checksum := 558161692, config_settings := [0, 0, 0, 0] })
        (prelaunch_terminal samplePlatform
          (scriptEnv [(USB_STATUS.USB_OK, [0x24]), (USB_STATUS.USB_OK, [2])] USB_STATUS.USB_OK
            FLASH_STATUS.FLASH_OK USB_STATUS.USB_OK false) sampleHandles 7 0
          (sampleSt { checksum := 558161692, config_settings := [0, 0, 0, 0] })).1).filter
          Event.is_usb_transmit =
        [Event.usb_transmit
          (TxBuf.bytes (le_bytes32
            (sampleSt { checksum := 558161692, config_settings := [0, 0, 0, 0] }).preset_data.checksum
            ++ (sampleSt { checksum := 558161692, config_settings := [0, 0, 0, 0] }
              ).preset_data.config_settings))
          (4 + samplePlatform.sizeof_CONFIG_SETTINGS_TYPE) t1,
         Event.usb_transmit (TxBuf.flash_status_obj (if t1 ≠ USB_STATUS.USB_OK then
           FLASH_STATUS.FLASH_FAIL else FLASH_STATUS.FLASH_OK)) n t2] :=
  (preset_op_download_verify_response samplePlatform
    (scriptEnv [(USB_STATUS.USB_OK, [0x24]), (USB_STATUS.USB_OK, [2])] USB_STATUS.USB_OK
      FLASH_STATUS.FLASH_OK USB_STATUS.USB_OK false) sampleHandles 7 0
    (sampleSt { checksum := 558161692, config_settings := [0, 0, 0, 0] }) [0x24] [2]
    (by decide) (by decide) (by decide) (by decide) (by decide)).1 (by decide)

/-! ## The flash status echo -/

/-- The length argument of the status echo is `sizeof( flash_status )`, the
size of the pointer, and the object sent is `*flash_status`. -/
theorem transmit_flash_status_length (pf : Platform) (env : Env) (s : St) :
    ∃ t, (new_events s (transmit_flash_status pf env s).1).filter Event.is_usb_transmit =
      [Event.usb_transmit (TxBuf.flash_status_obj s.flash_status) pf.sizeof_flash_status_ptr t]
    := by
  rw [transmit_flash_status_eq]
  split
  · exact ⟨env.usb_transmit s.trace (TxBuf.flash_status_obj s.flash_status)
      pf.sizeof_flash_status_ptr, by simp [new_events, Event.is_usb_transmit]⟩
  · exact ⟨USB_STATUS.USB_OK, by simp [new_events, Event.is_usb_transmit]⟩

/-- C13 (code bug): on the sample platform, where a pointer is four bytes, the
host sends `FLASH_OP` with subcommand 5, respectively `PRESET_OP`, UPLOAD and a
record; the only transmit of the cycle sends `*flash_status` with length 4,
not 1. -/
theorem flash_status_echo_has_pointer_length :
    samplePlatform.sizeof_flash_status_ptr = 4 ∧
    (new_events (sampleSt { checksum := 0, config_settings := [0, 0, 0, 0] })
      (prelaunch_terminal samplePlatform
        (scriptEnv [(USB_STATUS.USB_OK, [0x22]), (USB_STATUS.USB_OK, [5])] USB_STATUS.USB_OK
          FLASH_STATUS.FLASH_OK USB_STATUS.USB_OK false) sampleHandles 7 0
        (sampleSt { checksum := 0, config_settings := [0, 0, 0, 0] })).1)
      = [Event.led_set_color LED_COLOR.LED_GREEN, Event.usb_detect true,
         Event.usb_receive 1 USB_STATUS.USB_OK [0x22], Event.usb_receive 1 USB_STATUS.USB_OK [5],
         Event.flash_cmd_execute 5 0x200 FLASH_STATUS.FLASH_OK,
         Event.usb_transmit (TxBuf.flash_status_obj FLASH_STATUS.FLASH_OK) 4 USB_STATUS.USB_OK,
         Event.ign_switch_cont false] ∧
    (new_events (sampleSt { checksum := 0, config_settings := [1, 0, 0, 0] })
      (prelaunch_terminal samplePlatform
        (scriptEnv [(USB_STATUS.USB_OK, [0x24]), (USB_STATUS.USB_OK, [1]),
          (USB_STATUS.USB_OK, [28, 223, 68, 33, 0, 0, 0, 0])] USB_STATUS.USB_OK
          FLASH_STATUS.FLASH_OK USB_STATUS.USB_OK false) sampleHandles 7 0
        (sampleSt { checksum := 0, config_settings := [1, 0, 0, 0] })).1)
      = [Event.led_set_color LED_COLOR.LED_GREEN, Event.usb_detect true,
         Event.usb_receive 1 USB_STATUS.USB_OK [0x24], Event.usb_receive 1 USB_STATUS.USB_OK [1],
         Event.usb_receive 8 USB_STATUS.USB_OK [28, 223, 68, 33, 0, 0, 0, 0],
         Event.write_preset 0x200 { checksum := 0, config_settings := [0, 0, 0, 0] } 0x300
           FLASH_STATUS.FLASH_OK,
         Event.usb_transmit (TxBuf.flash_status_obj FLASH_STATUS.FLASH_OK) 4 USB_STATUS.USB_OK,
         Event.ign_switch_cont false] := by
  decide

/-! ## Unknown opcode -/

/-- C14: when a host is detected, the opcode byte is received with `USB_OK`
and is none of the five opcodes, and the ignition switch is not asserted, the
cycle consists of the indicator call, the detection, the one receive and the
reading of the switch: nothing is transmitted, nothing more is received, no
handler and no `error_fail_fast` is called, the globals (in-RAM preset,
`*flash_status`, `*flash_address`, state) are unchanged and the dispatcher
returns `USB_OK`.  In any later cycle, from any state, a received `CONNECT_OP`
is answered by `ping` and the transmit of the firmware code. -/
theorem unknown_opcode_is_skipped (pf : Platform) (env : Env) (h : Handles) (fc : Nat)
    (fuel : Nat) (s : St) (buf : List Nat)
    (hdet : env.usb_detect (s.trace ++ [Event.led_set_color LED_COLOR.LED_GREEN]) = true)
    (hrx : env.usb_receive
      (s.trace ++ [Event.led_set_color LED_COLOR.LED_GREEN, Event.usb_detect true]) 1
        = (USB_STATUS.USB_OK, buf))
    (h1 : buf.headD 0 ≠ pf.CONNECT_OP) (h2 : buf.headD 0 ≠ pf.SENSOR_OP)
    (h3 : buf.headD 0 ≠ pf.FIN_OP) (h4 : buf.headD 0 ≠ pf.FLASH_OP)
    (h5 : buf.headD 0 ≠ pf.PRESET_OP)
    (hsw : env.ign_switch_cont
      (s.trace ++ [Event.led_set_color LED_COLOR.LED_GREEN, Event.usb_detect true,
        Event.usb_receive 1 USB_STATUS.USB_OK buf]) = false) :
    prelaunch_terminal pf env h fc fuel s =
        ({ s with trace := s.trace ++ [Event.led_set_color LED_COLOR.LED_GREEN,
            Event.usb_detect true, Event.usb_receive 1 USB_STATUS.USB_OK buf,
            Event.ign_switch_cont false] }, Res.ret USB_STATUS.USB_OK) ∧
    ∀ (s2 : St) (buf2 : List Nat),
      env.usb_detect (s2.trace ++ [Event.led_set_color LED_COLOR.LED_GREEN]) = true →
      env.usb_receive
        (s2.trace ++ [Event.led_set_color LED_COLOR.LED_GREEN, Event.usb_detect true]) 1
          = (USB_STATUS.USB_OK, buf2) →
      buf2.headD 0 = pf.CONNECT_OP →
      ∃ t, command_phase pf env h fc s2 =
        ({ s2 with trace := s2.trace ++ [Event.led_set_color LED_COLOR.LED_GREEN,
            Event.usb_detect true, Event.usb_receive 1 USB_STATUS.USB_OK buf2, Event.ping,
            Event.usb_transmit (TxBuf.bytes [fc]) 1 t] }, Res.ret USB_STATUS.USB_OK) := by
  constructor
  · have hcp : command_phase pf env h fc s = (opcode_received s buf, Res.ret USB_STATUS.USB_OK) := by
      rw [command_phase_switch pf env h fc s buf hdet hrx, if_neg h1, if_neg h2, if_neg h3,
        if_neg h4, if_neg h5]
    rw [prelaunch_terminal_of_command_ret pf env h fc fuel s _ _ hcp,
      arming_gate_off pf env h fuel _ _ (by rw [opcode_received_trace]; exact hsw)]
    simp [opcode_received, emit]
  · intro s2 buf2 hdet2 hrx2 hop
    rw [command_phase_switch pf env h fc s2 buf2 hdet2 hrx2, if_pos hop]
    exact ⟨env.usb_transmit (s2.trace ++ [Event.led_set_color LED_COLOR.LED_GREEN,
        Event.usb_detect true, Event.usb_receive 1 USB_STATUS.USB_OK buf2, Event.ping])
        (TxBuf.bytes [fc]) 1, by simp [connect_op, opcode_received, emit]⟩

/-- Witness for C14: the host sends `0xFF` on the sample platform. -/
theorem unknown_opcode_is_skipped_witness :
    prelaunch_terminal samplePlatform
        (sampleEnv USB_STATUS.USB_OK [255] false false false (fun _ => 0)) sampleHandles 7 0
        (sampleSt { checksum := 0, config_settings := [0, 0, 0, 0] }) =
      ({ sampleSt { checksum := 0, config_settings := [0, 0, 0, 0] } with
          trace := (sampleSt { checksum := 0, config_settings := [0, 0, 0, 0] }).trace ++
            [Event.led_set_color LED_COLOR.LED_GREEN,
             Event.usb_detect true, Event.usb_receive 1 USB_STATUS.USB_OK [255],
             Event.ign_switch_cont false] }, Res.ret USB_STATUS.USB_OK) :=
  (unknown_opcode_is_skipped samplePlatform
    (sampleEnv USB_STATUS.USB_OK [255] false false false (fun _ => 0)) sampleHandles 7 0
    (sampleSt { checksum := 0, config_settings := [0, 0, 0, 0] }) [255]
    (by decide) (by decide) (by decide) (by decide) (by decide) (by decide) (by decide)
    (by decide)).1

/-! ## Transport failures in FLASH_OP and PRESET_OP -/

theorem preset_cmd_execute_no_flash_cmd_error (pf : Platform) (env : Env) (h : Handles)
    (sub : Nat) (s : St) :
    ∃ evs, (preset_cmd_execute pf env h sub s).1.trace = s.trace ++ evs ∧
      ∀ e ∈ evs, e.is_flash_cmd_error = false := by
  by_cases h1 : sub = 1
  · subst h1
    rw [preset_upload_eq]
    exact ⟨_, by simp only [write_preset, emit, List.append_assoc]; rfl,
      by simp [Event.is_flash_cmd_error]⟩
  by_cases h2 : sub = 2
  · subst h2
    rw [preset_download_eq]
    exact ⟨_, rfl, by simp [Event.is_flash_cmd_error]⟩
  by_cases h3 : sub = 3
  · subst h3
    rw [preset_verify_state]
    exact ⟨_, by simp only [List.append_assoc]; rfl, by
      intro e he
      split at he <;> simp at he <;> rcases he with rfl | ⟨_, rfl⟩ <;> rfl⟩
  · refine ⟨[Event.error_fail_fast ERROR_CODE.ERROR_USB_UART_ERROR], ?_, by
      simp [Event.is_flash_cmd_error]⟩
    simp [preset_cmd_execute, h1, h2, h3, error_fail_fast, emit]

theorem subcommand_receive_failed (pf : Platform) (env : Env) (h : Handles) (s : St)
    (st : USB_STATUS) (buf : List Nat)
    (hrx : env.usb_receive s.trace 1 = (st, buf)) (hst : st ≠ USB_STATUS.USB_OK) :
    flash_op pf env h s =
        ({ s with trace := s.trace ++ [Event.usb_receive 1 st buf,
            Event.error_fail_fast ERROR_CODE.ERROR_FLASH_CMD_ERROR] },
          Res.fatal ERROR_CODE.ERROR_FLASH_CMD_ERROR) ∧
      preset_op pf env h s =
        ({ s with trace := s.trace ++ [Event.usb_receive 1 st buf,
            Event.error_fail_fast ERROR_CODE.ERROR_FLASH_CMD_ERROR] },
          Res.fatal ERROR_CODE.ERROR_FLASH_CMD_ERROR) := by
  constructor
  · unfold flash_op
    simp [hrx, hst, error_fail_fast, emit]
  · unfold preset_op
    simp [hrx, hst, error_fail_fast, emit]

theorem transmit_flash_status_failed (pf : Platform) (env : Env) (s : St) (t : USB_STATUS)
    (ht : env.usb_transmit s.trace (TxBuf.flash_status_obj s.flash_status)
      pf.sizeof_flash_status_ptr = t) (hne : t ≠ USB_STATUS.USB_OK) :
    transmit_flash_status pf env s =
      ({ s with trace := s.trace ++ [Event.usb_transmit (TxBuf.flash_status_obj s.flash_status)
          pf.sizeof_flash_status_ptr t,
          Event.error_fail_fast ERROR_CODE.ERROR_FLASH_CMD_ERROR] },
        Res.fatal ERROR_CODE.ERROR_FLASH_CMD_ERROR) := by
  rw [transmit_flash_status_eq, ht, if_pos hne]

theorem transmit_flash_status_ok (pf : Platform) (env : Env) (s : St)
    (ht : env.usb_transmit s.trace (TxBuf.flash_status_obj s.flash_status)
      pf.sizeof_flash_status_ptr = USB_STATUS.USB_OK) :
    transmit_flash_status pf env s =
      ({ s with trace := s.trace ++ [Event.usb_transmit (TxBuf.flash_status_obj s.flash_status)
          pf.sizeof_flash_status_ptr USB_STATUS.USB_OK] }, Res.ret USB_STATUS.USB_OK) := by
  rw [transmit_flash_status_eq, ht]
  simp

/-- C15: in the `FLASH_OP` and `PRESET_OP` cases of the command switch,
(1) a subcommand receive with a status other than `USB_OK` is followed only by
`error_fail_fast( ERROR_FLASH_CMD_ERROR )`: no handler runs and nothing is
transmitted; (2) when the subcommand was received and the handler returned a
flash status, the status is transmitted, and a transmit status other than
`USB_OK` is followed by `error_fail_fast( ERROR_FLASH_CMD_ERROR )`; (3) when
the transmit answers `USB_OK` the case returns `USB_OK` and the case has
called `error_fail_fast( ERROR_FLASH_CMD_ERROR )` nowhere, whatever the flash
status is; (4) with pairwise different opcodes these cases are what the
dispatcher runs on `FLASH_OP` and `PRESET_OP`. -/
theorem flash_preset_transport_failures (pf : Platform) (env : Env) (h : Handles) :
    (∀ (s : St) (st : USB_STATUS) (buf : List Nat),
      env.usb_receive s.trace 1 = (st, buf) → st ≠ USB_STATUS.USB_OK →
      flash_op pf env h s =
        ({ s with trace := s.trace ++ [Event.usb_receive 1 st buf,
            Event.error_fail_fast ERROR_CODE.ERROR_FLASH_CMD_ERROR] },
          Res.fatal ERROR_CODE.ERROR_FLASH_CMD_ERROR) ∧
      preset_op pf env h s =
        ({ s with trace := s.trace ++ [Event.usb_receive 1 st buf,
            Event.error_fail_fast ERROR_CODE.ERROR_FLASH_CMD_ERROR] },
          Res.fatal ERROR_CODE.ERROR_FLASH_CMD_ERROR)) ∧
    (∀ (s : St) (sub : List Nat) (fs : FLASH_STATUS) (t : USB_STATUS),
      env.usb_receive s.trace 1 = (USB_STATUS.USB_OK, sub) →
      env.flash_cmd_execute (s.trace ++ [Event.usb_receive 1 USB_STATUS.USB_OK sub])
        (sub.headD 0) = fs →
      env.usb_transmit (s.trace ++ [Event.usb_receive 1 USB_STATUS.USB_OK sub,
        Event.flash_cmd_execute (sub.headD 0) h.flash_handle fs])
        (TxBuf.flash_status_obj fs) pf.sizeof_flash_status_ptr = t →
      flash_op pf env h s =
        if t ≠ USB_STATUS.USB_OK then
          ({ s with flash_status := fs,
                    trace := s.trace ++ [Event.usb_receive 1 USB_STATUS.USB_OK sub,
                      Event.flash_cmd_execute (sub.headD 0) h.flash_handle fs,
                      Event.usb_transmit (TxBuf.flash_status_obj fs) pf.sizeof_flash_status_ptr t,
                      Event.error_fail_fast ERROR_CODE.ERROR_FLASH_CMD_ERROR] },
            Res.fatal ERROR_CODE.ERROR_FLASH_CMD_ERROR)
        else
          ({ s with flash_status := fs,
                    trace := s.trace ++ [Event.usb_receive 1 USB_STATUS.USB_OK sub,
                      Event.flash_cmd_execute (sub.headD 0) h.flash_handle fs,
                      Event.usb_transmit (TxBuf.flash_status_obj fs) pf.sizeof_flash_status_ptr
                        USB_STATUS.USB_OK] },
            Res.ret USB_STATUS.USB_OK)) ∧
    (∀ (s s2 : St) (sub : List Nat) (fs : FLASH_STATUS) (t : USB_STATUS),
      env.usb_receive s.trace 1 = (USB_STATUS.USB_OK, sub) →
      preset_cmd_execute pf env h (sub.headD 0)
        (emit s (Event.usb_receive 1 USB_STATUS.USB_OK sub)) = (s2, Res.ret fs) →
      env.usb_transmit s2.trace (TxBuf.flash_status_obj fs) pf.sizeof_flash_status_ptr = t →
      (preset_op pf env h s =
        if t ≠ USB_STATUS.USB_OK then
          ({ s2 with flash_status := fs,
                     trace := s2.trace ++ [Event.usb_transmit (TxBuf.flash_status_obj fs)
                       pf.sizeof_flash_status_ptr t,
                       Event.error_fail_fast ERROR_CODE.ERROR_FLASH_CMD_ERROR] },
            Res.fatal ERROR_CODE.ERROR_FLASH_CMD_ERROR)
        else
          ({ s2 with flash_status := fs,
                     trace := s2.trace ++ [Event.usb_transmit (TxBuf.flash_status_obj fs)
                       pf.sizeof_flash_status_ptr USB_STATUS.USB_OK] },
            Res.ret USB_STATUS.USB_OK)) ∧
      (t = USB_STATUS.USB_OK →
        (new_events s (preset_op pf env h s).1).filter Event.is_flash_cmd_error = [])) ∧
    (∀ (fc : Nat) (s : St) (buf : List Nat), opcodes_distinct pf →
      env.usb_detect (s.trace ++ [Event.led_set_color LED_COLOR.LED_GREEN]) = true →
      env.usb_receive
        (s.trace ++ [Event.led_set_color LED_COLOR.LED_GREEN, Event.usb_detect true]) 1
          = (USB_STATUS.USB_OK, buf) →
      (buf.headD 0 = pf.FLASH_OP →
        command_phase pf env h fc s = flash_op pf env h (opcode_received s buf)) ∧
      (buf.headD 0 = pf.PRESET_OP →
        command_phase pf env h fc s = preset_op pf env h (opcode_received s buf))) := by
  refine ⟨fun s st buf hrx hst => subcommand_receive_failed pf env h s st buf hrx hst, ?_, ?_,
    fun fc s buf hd hdet hrx =>
      ⟨command_phase_flash_op pf env h fc s buf hd hdet hrx,
       command_phase_preset_op pf env h fc s buf hd hdet hrx⟩⟩
  · intro s sub fs t hrx hfs ht
    rw [flash_op_run pf env h s sub hrx, hfs, transmit_flash_status_eq]
    simp only [ht]
    split <;> simp_all
  · intro s s2 sub fs t hrx hpce ht
    have hrun : preset_op pf env h s =
        transmit_flash_status pf env { s2 with flash_status := fs } := by
      rw [preset_op_run pf env h s sub hrx, hpce]
    have hrun2 : preset_op pf env h s =
        if t ≠ USB_STATUS.USB_OK then
          ({ s2 with flash_status := fs,
                     trace := s2.trace ++ [Event.usb_transmit (TxBuf.flash_status_obj fs)
                       pf.sizeof_flash_status_ptr t,
                       Event.error_fail_fast ERROR_CODE.ERROR_FLASH_CMD_ERROR] },
            Res.fatal ERROR_CODE.ERROR_FLASH_CMD_ERROR)
        else
          ({ s2 with flash_status := fs,
                     trace := s2.trace ++ [Event.usb_transmit (TxBuf.flash_status_obj fs)
                       pf.sizeof_flash_status_ptr USB_STATUS.USB_OK] },
            Res.ret USB_STATUS.USB_OK) := by
      rw [hrun, transmit_flash_status_eq]
      simp only [ht]
    refine ⟨hrun2, ?_⟩
    intro hok
    obtain ⟨evs, hevs, hno⟩ := preset_cmd_execute_no_flash_cmd_error pf env h (sub.headD 0)
      (emit s (Event.usb_receive 1 USB_STATUS.USB_OK sub))
    rw [hpce] at hevs
    simp only at hevs
    rw [hrun2, if_neg (not_not.2 hok)]
    rw [new_events_append s _ ([Event.usb_receive 1 USB_STATUS.USB_OK sub] ++ evs ++
      [Event.usb_transmit (TxBuf.flash_status_obj fs) pf.sizeof_flash_status_ptr
        USB_STATUS.USB_OK]) (by simp [hevs, emit])]
    have hev : evs.filter Event.is_flash_cmd_error = [] :=
      List.filter_eq_nil_iff.2 (fun e he => by simp [hno e he])
    simp [List.filter_append, hev, Event.is_flash_cmd_error]

/-- Witness for C15: the subcommand receive returns `USB_FAIL`. -/
theorem flash_preset_transport_failures_witness :
    flash_op samplePlatform (sampleEnv USB_STATUS.USB_FAIL [0] false false false (fun _ => 0))
        sampleHandles (sampleSt { checksum := 0, config_settings := [0, 0, 0, 0] }) =
      ({ sampleSt { checksum := 0, config_settings := [0, 0, 0, 0] } with
          trace := (sampleSt { checksum := 0, config_settings := [0, 0, 0, 0] }).trace ++
            [Event.usb_receive 1 USB_STATUS.USB_FAIL [0],
             Event.error_fail_fast ERROR_CODE.ERROR_FLASH_CMD_ERROR] },
        Res.fatal ERROR_CODE.ERROR_FLASH_CMD_ERROR) ∧
    preset_op samplePlatform (sampleEnv USB_STATUS.USB_FAIL [0] false false false (fun _ => 0))
        sampleHandles (sampleSt { checksum := 0, config_settings := [0, 0, 0, 0] }) =
      ({ sampleSt { checksum := 0, config_settings := [0, 0, 0, 0] } with
          trace := (sampleSt { checksum := 0, config_settings := [0, 0, 0, 0] }).trace ++
            [Event.usb_receive 1 USB_STATUS.USB_FAIL [0],
             Event.error_fail_fast ERROR_CODE.ERROR_FLASH_CMD_ERROR] },
        Res.fatal ERROR_CODE.ERROR_FLASH_CMD_ERROR) :=
  (flash_preset_transport_failures samplePlatform
    (sampleEnv USB_STATUS.USB_FAIL [0] false false false (fun _ => 0)) sampleHandles).1
    (sampleSt { checksum := 0, config_settings := [0, 0, 0, 0] }) USB_STATUS.USB_FAIL [0]
    (by decide) (by decide)

/-! ## FIN_OP -/

/-- C16: in the `FIN_OP` case, a calibration status other than `USB_OK` is
followed only by `error_fail_fast( ERROR_SERVO_CMD_ERROR )`, with no
`write_preset`; with `USB_OK`, `write_preset` is called once, on the preset the
calibration left in RAM, then `error_fail_fast( ERROR_FLASH_CMD_ERROR )` is
called when its status is not `FLASH_OK`, and the case returns `USB_OK` with no
further call when it is `FLASH_OK`; no case transmits; with pairwise different
opcodes this case is what the dispatcher runs on `FIN_OP`. -/
theorem fin_op_persists_calibration (pf : Platform) (env : Env) (h : Handles) :
    (∀ (s : St) (st : USB_STATUS) (p : PRESET_DATA),
      env.finCalibration s.trace s.preset_data = (st, p) → st ≠ USB_STATUS.USB_OK →
      fin_op env h s =
        ({ s with preset_data := p,
                  trace := s.trace ++ [Event.finCalibration st p,
                    Event.error_fail_fast ERROR_CODE.ERROR_SERVO_CMD_ERROR] },
          Res.fatal ERROR_CODE.ERROR_SERVO_CMD_ERROR)) ∧
    (∀ (s : St) (p : PRESET_DATA) (fs : FLASH_STATUS) (a : Nat),
      env.finCalibration s.trace s.preset_data = (USB_STATUS.USB_OK, p) →
      env.write_preset (s.trace ++ [Event.finCalibration USB_STATUS.USB_OK p]) p s.flash_address
        = (fs, a) →
      fin_op env h s =
        if fs ≠ FLASH_STATUS.FLASH_OK then
          ({ s with preset_data := p, flash_address := a,
                    trace := s.trace ++ [Event.finCalibration USB_STATUS.USB_OK p,
                      Event.write_preset h.flash_handle p h.flash_address fs,
                      Event.error_fail_fast ERROR_CODE.ERROR_FLASH_CMD_ERROR] },
            Res.fatal ERROR_CODE.ERROR_FLASH_CMD_ERROR)
        else
          ({ s with preset_data := p, flash_address := a,
                    trace := s.trace ++ [Event.finCalibration USB_STATUS.USB_OK p,
                      Event.write_preset h.flash_handle p h.flash_address fs] },
            Res.ret USB_STATUS.USB_OK)) ∧
    (∀ (fc : Nat) (s : St) (buf : List Nat), opcodes_distinct pf →
      env.usb_detect (s.trace ++ [Event.led_set_color LED_COLOR.LED_GREEN]) = true →
      env.usb_receive
        (s.trace ++ [Event.led_set_color LED_COLOR.LED_GREEN, Event.usb_detect true]) 1
          = (USB_STATUS.USB_OK, buf) →
      buf.headD 0 = pf.FIN_OP →
      command_phase pf env h fc s = fin_op env h (opcode_received s buf)) := by
  refine ⟨?_, ?_, fun fc s buf hd hdet hrx hop =>
    command_phase_fin_op pf env h fc s buf hd hdet hrx hop⟩
  · intro s st p hcal hst
    unfold fin_op
    simp [hcal, hst, error_fail_fast, emit]
  · intro s p fs a hcal hw
    have hw2 : env.write_preset
        (emit { s with preset_data := p } (Event.finCalibration USB_STATUS.USB_OK p)).trace
        (emit { s with preset_data := p } (Event.finCalibration USB_STATUS.USB_OK p)).preset_data
        (emit { s with preset_data := p } (Event.finCalibration USB_STATUS.USB_OK p)).flash_address
        = (fs, a) := hw
    unfold fin_op
    simp only [hcal, ne_eq, not_true_eq_false, if_false, write_preset, hw2]
    split <;> simp [error_fail_fast, emit]

/-- Witness for C16: the calibration routine answers `USB_FAIL`. -/
theorem fin_op_persists_calibration_witness :
    fin_op (scriptEnv [] USB_STATUS.USB_OK FLASH_STATUS.FLASH_OK USB_STATUS.USB_FAIL false)
        sampleHandles (sampleSt { checksum := 0, config_settings := [0, 0, 0, 0] }) =
      ({ sampleSt { checksum := 0, config_settings := [0, 0, 0, 0] } with
          preset_data := { checksum := 0, config_settings := [0, 0, 0, 0] },
          trace := (sampleSt { checksum := 0, config_settings := [0, 0, 0, 0] }).trace ++
            [Event.finCalibration USB_STATUS.USB_FAIL
               { checksum := 0, config_settings := [0, 0, 0, 0] },
             Event.error_fail_fast ERROR_CODE.ERROR_SERVO_CMD_ERROR] },
        Res.fatal ERROR_CODE.ERROR_SERVO_CMD_ERROR) :=
  (fin_op_persists_calibration samplePlatform
    (scriptEnv [] USB_STATUS.USB_OK FLASH_STATUS.FLASH_OK USB_STATUS.USB_FAIL false)
    sampleHandles).1
    (sampleSt { checksum := 0, config_settings := [0, 0, 0, 0] }) USB_STATUS.USB_FAIL
    { checksum := 0, config_settings := [0, 0, 0, 0] } (by decide) (by decide)

/-! ## The idle supervisor -/

/-- C17 (counterexample): every opcode receive returns a status that is
neither `USB_OK` nor `USB_FAIL`; the dispatcher returns that status, and in
two cycles `pre_launch_loop` calls `error_fail_fast` nowhere: it is still
looping when the fuel runs out. -/
theorem other_status_is_not_escalated :
    prelaunch_terminal samplePlatform
        (sampleEnv (USB_STATUS.USB_OTHER 2) [0] false false false (fun _ => 0)) sampleHandles 7 0
        (sampleSt { checksum := 0, config_settings := [0, 0, 0, 0] }) =
      ({ sampleSt { checksum := 0, config_settings := [0, 0, 0, 0] } with
          trace := [Event.led_set_color LED_COLOR.LED_GREEN, Event.usb_detect true,
            Event.usb_receive 1 (USB_STATUS.USB_OTHER 2) [0], Event.ign_switch_cont false] },
        Res.ret (USB_STATUS.USB_OTHER 2)) ∧
    pre_launch_loop samplePlatform
        (sampleEnv (USB_STATUS.USB_OTHER 2) [0] false false false (fun _ => 0)) sampleHandles 7 2
        (sampleSt { checksum := 0, config_settings := [0, 0, 0, 0] }) =
      ({ sampleSt { checksum := 0, config_settings := [0, 0, 0, 0] } with
          trace := [Event.led_set_color LED_COLOR.LED_GREEN, Event.buzzer_multi_beeps 50 50 2,
            Event.led_set_color LED_COLOR.LED_GREEN, Event.usb_detect true,
            Event.usb_receive 1 (USB_STATUS.USB_OTHER 2) [0], Event.ign_switch_cont false,
            Event.led_set_color LED_COLOR.LED_GREEN, Event.usb_detect true,
            Event.usb_receive 1 (USB_STATUS.USB_OTHER 2) [0], Event.ign_switch_cont false] },
        Res.timeout) := by
  decide

/-- C17 (amended): `pre_launch_loop` makes its entry calls, sets the state to
`FC_STATE_IDLE` and runs the loop; in the loop, with the state
`FC_STATE_IDLE`, the dispatcher is invoked, a returned `USB_FAIL` is followed
by `error_fail_fast( ERROR_USB_UART_ERROR )`, and after any other returned
status (`USB_OK` included) no error is raised and the loop goes on from the
state the dispatcher left; when the state is not `FC_STATE_IDLE` the loop
exits and `error_fail_fast( ERROR_INVALID_STATE_ERROR )` is called. -/
theorem idle_supervisor (pf : Platform) (env : Env) (h : Handles) (fc : Nat) (fuel : Nat)
    (s : St) :
    pre_launch_loop pf env h fc fuel s =
      idle_loop pf env h fc fuel
        { s with flight_computer_state := FLIGHT_COMP_STATE_TYPE.FC_STATE_IDLE,
                 trace := s.trace ++
                   (if s.flash_status = FLASH_STATUS.FLASH_PRESET_NOT_FOUND then
                     [Event.led_set_color LED_COLOR.LED_YELLOW,
                      Event.buzzer_multi_beeps 500 500 3] else []) ++
                   [Event.led_set_color LED_COLOR.LED_GREEN,
                    Event.buzzer_multi_beeps 50 50 2] } ∧
    (s.flight_computer_state = FLIGHT_COMP_STATE_TYPE.FC_STATE_IDLE →
      ∀ (s1 : St) (u : USB_STATUS),
        prelaunch_terminal pf env h fc fuel s = (s1, Res.ret u) →
        (u = USB_STATUS.USB_FAIL →
          idle_loop pf env h fc (fuel + 1) s =
            (emit s1 (Event.error_fail_fast ERROR_CODE.ERROR_USB_UART_ERROR),
              Res.fatal ERROR_CODE.ERROR_USB_UART_ERROR)) ∧
        (u ≠ USB_STATUS.USB_FAIL →
          idle_loop pf env h fc (fuel + 1) s = idle_loop pf env h fc fuel s1)) ∧
    (s.flight_computer_state ≠ FLIGHT_COMP_STATE_TYPE.FC_STATE_IDLE →
      idle_loop pf env h fc fuel s =
        (emit s (Event.error_fail_fast ERROR_CODE.ERROR_INVALID_STATE_ERROR),
          Res.fatal ERROR_CODE.ERROR_INVALID_STATE_ERROR)) := by
  refine ⟨?_, ?_, ?_⟩
  · unfold pre_launch_loop
    by_cases hnf : s.flash_status = FLASH_STATUS.FLASH_PRESET_NOT_FOUND
    · simp [hnf, emit]
    · simp [hnf, emit]
  · intro hidle s1 u hpt
    constructor
    · intro hu
      simp [idle_loop, hidle, hpt, hu, error_fail_fast]
    · intro hu
      simp [idle_loop, hidle, hpt, hu]
  · intro hidle
    cases fuel <;> simp [idle_loop, hidle, error_fail_fast]

/-- Witness for C17 (amended): a state `FC_STATE_FLIGHT` at the loop test. -/
theorem idle_supervisor_witness :
    idle_loop samplePlatform (sampleEnv USB_STATUS.USB_OK [255] false false false (fun _ => 0))
        sampleHandles 7 3
        { sampleSt { checksum := 0, config_settings := [0, 0, 0, 0] } with
          flight_computer_state := FLIGHT_COMP_STATE_TYPE.FC_STATE_FLIGHT } =
      (emit { sampleSt { checksum := 0, config_settings := [0, 0, 0, 0] } with
          flight_computer_state := FLIGHT_COMP_STATE_TYPE.FC_STATE_FLIGHT }
        (Event.error_fail_fast ERROR_CODE.ERROR_INVALID_STATE_ERROR),
        Res.fatal ERROR_CODE.ERROR_INVALID_STATE_ERROR) :=
  (idle_supervisor samplePlatform
    (sampleEnv USB_STATUS.USB_OK [255] false false false (fun _ => 0)) sampleHandles 7 3
    { sampleSt { checksum := 0, config_settings := [0, 0, 0, 0] } with
      flight_computer_state := FLIGHT_COMP_STATE_TYPE.FC_STATE_FLIGHT }).2.2 (by decide)

/-! ## The configuration validity error -/

theorem preset_cmd_execute_calm (pf : Platform) (env : Env) (h : Handles) (sub : Nat) (s : St) :
    ∃ evs, (preset_cmd_execute pf env h sub s).1.trace = s.trace ++ evs ∧
      ∀ e ∈ evs, e.is_config_validity_error = false := by
  by_cases h1 : sub = 1
  · subst h1
    rw [preset_upload_eq]
    exact ⟨_, by simp only [write_preset, emit, List.append_assoc]; rfl,
      by simp [Event.is_config_validity_error]⟩
  by_cases h2 : sub = 2
  · subst h2
    rw [preset_download_eq]
    exact ⟨_, rfl, by simp [Event.is_config_validity_error]⟩
  by_cases h3 : sub = 3
  · subst h3
    rw [preset_verify_state]
    exact ⟨_, by simp only [List.append_assoc]; rfl, by
      intro e he
      split at he <;> simp at he <;> rcases he with rfl | ⟨_, rfl⟩ <;> rfl⟩
  · refine ⟨[Event.error_fail_fast ERROR_CODE.ERROR_USB_UART_ERROR], ?_, by
      simp [Event.is_config_validity_error]⟩
    simp [preset_cmd_execute, h1, h2, h3, error_fail_fast, emit]

theorem calm_refl (s : St) : calm_step s s :=
  ⟨[], by simp, by simp⟩

theorem calm_trans (s0 s1 s2 : St) (h01 : calm_step s0 s1) (h12 : calm_step s1 s2) :
    calm_step s0 s2 := by
  obtain ⟨e1, ht1, hf1⟩ := h01
  obtain ⟨e2, ht2, hf2⟩ := h12
  refine ⟨e1 ++ e2, by rw [ht2, ht1, List.append_assoc], ?_⟩
  intro e he
  rcases List.mem_append.1 he with he | he
  · exact hf1 e he
  · exact hf2 e he

theorem calm_congr (s0 s s2 : St) (ht : s2.trace = s.trace) (hq : calm_step s0 s) :
    calm_step s0 s2 := by
  obtain ⟨evs, h1, h2⟩ := hq
  exact ⟨evs, by rw [ht, h1], h2⟩

theorem calm_emit (s0 s : St) (e : Event) (hq : calm_step s0 s)
    (he : e.is_config_validity_error = false) : calm_step s0 (emit s e) :=
  calm_trans s0 s _ hq ⟨[e], rfl, by simpa using he⟩

theorem calm_error (s0 s : St) (α : Type) (code : ERROR_CODE) (hq : calm_step s0 s)
    (hc : (Event.error_fail_fast code).is_config_validity_error = false) :
    calm_step s0 (error_fail_fast code s : St × Res α).1 :=
  calm_emit s0 s _ hq hc

theorem calm_write_preset (s0 s : St) (env : Env) (h : Handles) (hq : calm_step s0 s) :
    calm_step s0 (write_preset env h s).1 :=
  calm_emit s0 _ _ (calm_congr s0 s _ rfl hq) rfl

theorem calm_transmit_flash_status (s0 s : St) (pf : Platform) (env : Env)
    (hq : calm_step s0 s) : calm_step s0 (transmit_flash_status pf env s).1 := by
  unfold transmit_flash_status
  simp only []
  split
  · exact calm_error s0 _ _ _ (calm_emit s0 s _ hq rfl) rfl
  · exact calm_emit s0 s _ hq rfl

theorem calm_preset_cmd_execute (s0 s : St) (pf : Platform) (env : Env) (h : Handles)
    (sub : Nat) (hq : calm_step s0 s) : calm_step s0 (preset_cmd_execute pf env h sub s).1 :=
  calm_trans s0 s _ hq (preset_cmd_execute_calm pf env h sub s)

theorem calm_connect_op (s0 s : St) (env : Env) (fc : Nat) (u : USB_STATUS)
    (hq : calm_step s0 s) : calm_step s0 (connect_op env fc u s).1 :=
  calm_emit s0 _ _ (calm_emit s0 s _ hq rfl) rfl

theorem calm_sensor_op (s0 s : St) (env : Env) (u : USB_STATUS)
    (hq : calm_step s0 s) : calm_step s0 (sensor_op env u s).1 := by
  unfold sensor_op
  simp only []
  split
  · exact calm_emit s0 _ _ (calm_emit s0 s _ hq rfl) rfl
  · exact calm_error s0 _ _ _ (calm_emit s0 s _ hq rfl) rfl

theorem calm_fin_op (s0 s : St) (env : Env) (h : Handles)
    (hq : calm_step s0 s) : calm_step s0 (fin_op env h s).1 := by
  have h1 : calm_step s0 (emit { s with preset_data := (env.finCalibration s.trace s.preset_data).2 }
      (Event.finCalibration (env.finCalibration s.trace s.preset_data).1
        (env.finCalibration s.trace s.preset_data).2)) :=
    calm_emit s0 _ _ (calm_congr s0 s _ rfl hq) rfl
  unfold fin_op
  simp only []
  split
  · exact calm_error s0 _ _ _ h1 rfl
  · split
    · exact calm_error s0 _ _ _ (calm_write_preset s0 _ env h h1) rfl
    · exact calm_write_preset s0 _ env h h1

theorem calm_flash_op (s0 s : St) (pf : Platform) (env : Env) (h : Handles)
    (hq : calm_step s0 s) : calm_step s0 (flash_op pf env h s).1 := by
  unfold flash_op
  simp only []
  split
  · exact calm_transmit_flash_status s0 _ pf env
      (calm_emit s0 _ _ (calm_congr s0 _ _ rfl (calm_emit s0 s _ hq rfl)) rfl)
  · exact calm_error s0 _ _ _ (calm_emit s0 s _ hq rfl) rfl

theorem calm_preset_op (s0 s : St) (pf : Platform) (env : Env) (h : Handles)
    (hq : calm_step s0 s) : calm_step s0 (preset_op pf env h s).1 := by
  have h1 := calm_preset_cmd_execute s0 _ pf env h ((env.usb_receive s.trace 1).2.headD 0)
    (calm_emit s0 s (Event.usb_receive 1 (env.usb_receive s.trace 1).1
      (env.usb_receive s.trace 1).2) hq rfl)
  unfold preset_op
  simp only []
  split
  · split
    · rename_i s2 fs heq
      rw [heq] at h1
      exact calm_transmit_flash_status s0 _ pf env (calm_congr s0 s2 _ rfl h1)
    · rename_i s2 r _ heq
      rw [heq] at h1
      exact h1
  · exact calm_error s0 _ _ _ (calm_emit s0 s _ hq rfl) rfl

/-- The command handler never calls `error_fail_fast( ERROR_CONFIG_VALIDITY_ERROR )`. -/
theorem calm_command_phase (pf : Platform) (env : Env) (h : Handles) (fc : Nat) (s : St) :
    calm_step s (command_phase pf env h fc s).1 := by
  have h1 : calm_step s (emit (emit s (Event.led_set_color LED_COLOR.LED_GREEN))
      (Event.usb_detect (env.usb_detect (emit s (Event.led_set_color LED_COLOR.LED_GREEN)).trace))) :=
    calm_emit s _ _ (calm_emit s s _ (calm_refl s) rfl) rfl
  have h2 := calm_emit s _ (Event.usb_receive 1
    (env.usb_receive (emit (emit s (Event.led_set_color LED_COLOR.LED_GREEN))
      (Event.usb_detect (env.usb_detect
        (emit s (Event.led_set_color LED_COLOR.LED_GREEN)).trace))).trace 1).1
    (env.usb_receive (emit (emit s (Event.led_set_color LED_COLOR.LED_GREEN))
      (Event.usb_detect (env.usb_detect
        (emit s (Event.led_set_color LED_COLOR.LED_GREEN)).trace))).trace 1).2) h1 rfl
  unfold command_phase
  simp only []
  split
  · split
    · split
      · exact calm_connect_op s _ env fc _ h2
      · split
        · exact calm_sensor_op s _ env _ h2
        · split
          · exact calm_fin_op s _ env h h2
          · split
            · exact calm_flash_op s _ pf env h h2
            · split
              · exact calm_preset_op s _ pf env h h2
              · exact h2
    · exact h2
  · exact h1

theorem lockout_events_calm (n : Nat) :
    ∀ e ∈ lockout_events n, e.is_config_validity_error = false := by
  induction n with
  | zero => simp [lockout_events]
  | succ n ih =>
    intro e he
    simp only [lockout_events, List.mem_append, List.mem_cons, List.mem_singleton,
      List.not_mem_nil, or_false] at he
    rcases he with (rfl | rfl | rfl | rfl) | he
    · rfl
    · rfl
    · rfl
    · rfl
    · exact ih e he

theorem gate_events_calm (pf : Platform) (env : Env) (h : Handles) (fuel : Nat) (s : St) :
    ∀ e ∈ gate_events pf env h fuel s, e.is_config_validity_error = false := by
  intro e he
  unfold gate_events chute_events at he
  split at he
  · split at he
    · rcases List.mem_cons.1 he with rfl | he
      · rfl
      · exact lockout_events_calm fuel e he
    · repeat' split at he
      all_goals
        simp only [List.mem_cons, List.mem_singleton, List.not_mem_nil, or_false,
          flight_loop_event] at he
        rcases he with rfl | rfl | rfl | rfl | rfl <;> rfl
  · simp only [List.mem_singleton] at he
    subst he
    rfl

theorem calm_prelaunch_terminal (pf : Platform) (env : Env) (h : Handles) (fc : Nat)
    (fuel : Nat) (s : St) : calm_step s (prelaunch_terminal pf env h fc fuel s).1 := by
  have hc := calm_command_phase pf env h fc s
  unfold prelaunch_terminal
  generalize command_phase pf env h fc s = q at hc
  obtain ⟨s1, r⟩ := q
  cases r with
  | ret u =>
    simp only []
    exact calm_trans s s1 _ hc ⟨_, arming_gate_trace pf env h fuel u s1,
      gate_events_calm pf env h fuel s1⟩
  | fatal e => exact hc
  | noreturn => exact hc
  | timeout => exact hc

/-- C18: for every preset `check_config_validity` either returns true for
every amount of fuel or is still in its loop for every amount of fuel, so it
never returns false; and no dispatcher cycle contains the call
`error_fail_fast( ERROR_CONFIG_VALIDITY_ERROR )`. -/
theorem config_validity_error_unreachable (pf : Platform) (env : Env) (h : Handles) (fc : Nat)
    (fuel : Nat) (s : St) :
    (∀ p : PRESET_DATA,
      (∀ (n : Nat) (s0 : St), check_config_validity pf n p s0 = (s0, Res.ret true)) ∨
      (∀ (n : Nat) (s0 : St), (check_config_validity pf n p s0).2 = Res.timeout)) ∧
    (∀ (p : PRESET_DATA) (n : Nat) (s0 s2 : St),
      check_config_validity pf n p s0 ≠ (s2, Res.ret false)) ∧
    (∀ e ∈ new_events s (prelaunch_terminal pf env h fc fuel s).1,
      e ≠ Event.error_fail_fast ERROR_CODE.ERROR_CONFIG_VALIDITY_ERROR) := by
  refine ⟨?_, ?_, ?_⟩
  · intro p
    by_cases hv : pf.enabled_features p.config_settings &&& invalid_feature_flags pf = 0
    · exact Or.inl (fun n s0 => check_config_validity_valid pf n p s0 hv)
    · refine Or.inr (fun n s0 => ?_)
      rw [check_config_validity_invalid pf n p s0 hv]
  · intro p n s0 s2 hc
    by_cases hv : pf.enabled_features p.config_settings &&& invalid_feature_flags pf = 0
    · rw [check_config_validity_valid pf n p s0 hv] at hc
      simp at hc
    · rw [check_config_validity_invalid pf n p s0 hv] at hc
      simp at hc
  · obtain ⟨evs, ht, hno⟩ := calm_prelaunch_terminal pf env h fc fuel s
    rw [new_events_append s _ evs ht]
    intro e he heq
    have := hno e he
    rw [heq] at this
    simp [Event.is_config_validity_error] at this

/-! ## Upload and the status of its receive -/

/-- C19: two runs of UPLOAD from the same state that receive the same buffer,
one with status `st1` and one with status `st2` (for instance `USB_OK` and
`USB_FAIL`), where `write_preset` answers alike: in both runs the
configuration bytes of the in-RAM preset are overwritten by the bytes of the
buffer from offset 4 on, and the stored checksum is kept when the received
and the computed checksum agree and set to 0 otherwise; both runs end with
the same in-RAM preset, the same `*flash_address` and the same returned flash
status; each run makes the receive and then one `write_preset` call, on that
overwritten record, and no other call (no error is raised). -/
theorem upload_ignores_receive_status (pf : Platform) (env1 env2 : Env) (h : Handles) (s : St)
    (st1 st2 : USB_STATUS) (buf : List Nat)
    (h1 : env1.usb_receive s.trace (pf.sizeof_CONFIG_SETTINGS_TYPE + 4) = (st1, buf))
    (h2 : env2.usb_receive s.trace (pf.sizeof_CONFIG_SETTINGS_TYPE + 4) = (st2, buf))
    (hw : ∀ (p : PRESET_DATA) (a : Nat),
      env1.write_preset
          (s.trace ++ [Event.usb_receive (pf.sizeof_CONFIG_SETTINGS_TYPE + 4) st1 buf]) p a =
        env2.write_preset
          (s.trace ++ [Event.usb_receive (pf.sizeof_CONFIG_SETTINGS_TYPE + 4) st2 buf]) p a) :
    (preset_cmd_execute pf env1 h 1 s).1.preset_data =
        (preset_cmd_execute pf env2 h 1 s).1.preset_data ∧
    (preset_cmd_execute pf env1 h 1 s).1.flash_address =
        (preset_cmd_execute pf env2 h 1 s).1.flash_address ∧
    (preset_cmd_execute pf env1 h 1 s).2 = (preset_cmd_execute pf env2 h 1 s).2 ∧
    (preset_cmd_execute pf env1 h 1 s).1.preset_data.config_settings =
        (buf.drop 4).take pf.sizeof_CONFIG_SETTINGS_TYPE ∧
    (preset_cmd_execute pf env2 h 1 s).1.preset_data.config_settings =
        (buf.drop 4).take pf.sizeof_CONFIG_SETTINGS_TYPE ∧
    (buf.length = 4 + pf.sizeof_CONFIG_SETTINGS_TYPE →
      (preset_cmd_execute pf env1 h 1 s).1.preset_data.config_settings = buf.drop 4 ∧
      (preset_cmd_execute pf env2 h 1 s).1.preset_data.config_settings = buf.drop 4) ∧
    (preset_cmd_execute pf env2 h 1 s).1.preset_data.checksum =
      (if le32 (buf.take 4) =
          pf.crc32 ((buf.drop 4).take pf.sizeof_CONFIG_SETTINGS_TYPE) % 2 ^ 32
        then s.preset_data.checksum else 0) ∧
    ∃ (record : PRESET_DATA) (fs : FLASH_STATUS),
      record = (preset_cmd_execute pf env1 h 1 s).1.preset_data ∧
      record = (preset_cmd_execute pf env2 h 1 s).1.preset_data ∧
      (preset_cmd_execute pf env1 h 1 s).2 = Res.ret fs ∧
      (preset_cmd_execute pf env2 h 1 s).2 = Res.ret fs ∧
      new_events s (preset_cmd_execute pf env1 h 1 s).1 =
        [Event.usb_receive (pf.sizeof_CONFIG_SETTINGS_TYPE + 4) st1 buf,
          Event.write_preset h.flash_handle record h.flash_address fs] ∧
      new_events s (preset_cmd_execute pf env2 h 1 s).1 =
        [Event.usb_receive (pf.sizeof_CONFIG_SETTINGS_TYPE + 4) st2 buf,
          Event.write_preset h.flash_handle record h.flash_address fs] := by
  have hcfg : ∀ env : Env, ∀ st : USB_STATUS,
      env.usb_receive s.trace (pf.sizeof_CONFIG_SETTINGS_TYPE + 4) = (st, buf) →
      (preset_cmd_execute pf env h 1 s).1.preset_data.config_settings =
        (buf.drop 4).take pf.sizeof_CONFIG_SETTINGS_TYPE := by
    intro env st hrx
    rw [preset_upload_eq]
    simp only [hrx, write_preset, emit]
    split <;> rfl
  have hsum : (preset_cmd_execute pf env2 h 1 s).1.preset_data.checksum =
      (if le32 (buf.take 4) =
          pf.crc32 ((buf.drop 4).take pf.sizeof_CONFIG_SETTINGS_TYPE) % 2 ^ 32
        then s.preset_data.checksum else 0) := by
    rw [preset_upload_eq]
    simp only [h2, write_preset, emit]
    split <;> rfl
  have hfull : buf.length = 4 + pf.sizeof_CONFIG_SETTINGS_TYPE →
      (buf.drop 4).take pf.sizeof_CONFIG_SETTINGS_TYPE = buf.drop 4 := by
    intro hlen
    apply List.take_of_length_le
    simp [hlen]
  refine ⟨?_, ?_, ?_, hcfg env1 st1 h1, hcfg env2 st2 h2,
    fun hlen => ⟨by rw [hcfg env1 st1 h1, hfull hlen], by rw [hcfg env2 st2 h2, hfull hlen]⟩,
    hsum, ?_⟩
  · rw [preset_upload_eq, preset_upload_eq]
    simp only [h1, h2, write_preset, emit, hw]
  · rw [preset_upload_eq, preset_upload_eq]
    simp only [h1, h2, write_preset, emit, hw]
  · rw [preset_upload_eq, preset_upload_eq]
    simp only [h1, h2, write_preset, emit, hw]
  · rw [preset_upload_eq, preset_upload_eq]
    simp only [h1, h2, write_preset, emit, hw]
    generalize (if le32 (buf.take 4) =
        pf.crc32 ((buf.drop 4).take pf.sizeof_CONFIG_SETTINGS_TYPE) % 2 ^ 32 then
        ({ checksum := s.preset_data.checksum,
           config_settings := (buf.drop 4).take pf.sizeof_CONFIG_SETTINGS_TYPE } : PRESET_DATA)
      else { checksum := 0,
             config_settings := (buf.drop 4).take pf.sizeof_CONFIG_SETTINGS_TYPE }) = record
    generalize env2.write_preset
      (s.trace ++ [Event.usb_receive (pf.sizeof_CONFIG_SETTINGS_TYPE + 4) st2 buf]) record
      s.flash_address = w
    exact ⟨record, w.1, rfl, rfl, rfl, rfl, by simp [new_events], by simp [new_events]⟩

/-- Witness for C19: the eight bytes `DE AD BE EF 00 00 00 00` received with
`USB_FAIL` overwrite the configuration bytes `01 00 00 00` of the in-RAM
preset by `00 00 00 00`, as they do when received with `USB_OK`. -/
theorem upload_ignores_receive_status_witness :
    (preset_cmd_execute samplePlatform
      (sampleEnv USB_STATUS.USB_OK [239, 190, 173, 222, 0, 0, 0, 0] false false false
        (fun _ => 0))
      sampleHandles 1
      (sampleSt { checksum := 7, config_settings := [1, 0, 0, 0] })).1.preset_data.config_settings
      = List.drop 4 [239, 190, 173, 222, 0, 0, 0, 0] ∧
    (preset_cmd_execute samplePlatform
      (sampleEnv USB_STATUS.USB_FAIL [239, 190, 173, 222, 0, 0, 0, 0] false false false
        (fun _ => 0))
      sampleHandles 1
      (sampleSt { checksum := 7, config_settings := [1, 0, 0, 0] })).1.preset_data.config_settings
      = List.drop 4 [239, 190, 173, 222, 0, 0, 0, 0] :=
  (upload_ignores_receive_status samplePlatform
    (sampleEnv USB_STATUS.USB_OK [239, 190, 173, 222, 0, 0, 0, 0] false false false
      (fun _ => 0))
    (sampleEnv USB_STATUS.USB_FAIL [239, 190, 173, 222, 0, 0, 0, 0] false false false
      (fun _ => 0))
    sampleHandles (sampleSt { checksum := 7, config_settings := [1, 0, 0, 0] })
    USB_STATUS.USB_OK USB_STATUS.USB_FAIL [239, 190, 173, 222, 0, 0, 0, 0]
    (by decide) (by decide) (fun _ _ => rfl)).2.2.2.2.2.1 (by decide)

/-! ## The value returned by the dispatcher -/

theorem transmit_flash_status_ret (pf : Platform) (env : Env) (s : St) (u : USB_STATUS)
    (hr : (transmit_flash_status pf env s).2 = Res.ret u) : u = USB_STATUS.USB_OK := by
  rw [transmit_flash_status_eq] at hr
  split at hr
  · simp at hr
  · simp at hr
    exact hr.symm

theorem connect_op_ret (env : Env) (fc : Nat) (s : St) (u : USB_STATUS)
    (hr : (connect_op env fc USB_STATUS.USB_OK s).2 = Res.ret u) : u = USB_STATUS.USB_OK := by
  simp [connect_op] at hr
  exact hr.symm

theorem sensor_op_ret (env : Env) (s : St) (u : USB_STATUS)
    (hr : (sensor_op env USB_STATUS.USB_OK s).2 = Res.ret u) : u = USB_STATUS.USB_OK := by
  unfold sensor_op at hr
  simp only [] at hr
  split at hr
  · simp at hr
    exact hr.symm
  · simp [error_fail_fast] at hr

theorem fin_op_ret (env : Env) (h : Handles) (s : St) (u : USB_STATUS)
    (hr : (fin_op env h s).2 = Res.ret u) : u = USB_STATUS.USB_OK := by
  unfold fin_op at hr
  simp only [] at hr
  split at hr
  · simp [error_fail_fast] at hr
  · rename_i hok
    split at hr
    · simp [error_fail_fast] at hr
    · simp at hr
      rw [← hr]
      exact not_not.1 hok

theorem flash_op_ret (pf : Platform) (env : Env) (h : Handles) (s : St) (u : USB_STATUS)
    (hr : (flash_op pf env h s).2 = Res.ret u) : u = USB_STATUS.USB_OK := by
  unfold flash_op at hr
  simp only [] at hr
  split at hr
  · exact transmit_flash_status_ret pf env _ u hr
  · simp [error_fail_fast] at hr

theorem preset_op_ret (pf : Platform) (env : Env) (h : Handles) (s : St) (u : USB_STATUS)
    (hr : (preset_op pf env h s).2 = Res.ret u) : u = USB_STATUS.USB_OK := by
  unfold preset_op at hr
  simp only [] at hr
  split at hr
  · rename_i hok
    split at hr
    · exact transmit_flash_status_ret pf env _ u hr
    · rename_i s2 r _ _
      cases r <;> simp [Res.cast] at hr
      rw [← hr]
      exact hok
  · simp [error_fail_fast] at hr

theorem call_flight_loop_ret (env : Env) (h : Handles) (u u2 : USB_STATUS) (s : St)
    (hr : (call_flight_loop env h u s).2 = Res.ret u2) : u2 = u := by
  rcases call_flight_loop_result env h u s with hc | hc
  · rw [hc] at hr
    simp at hr
    exact hr.symm
  · rw [hc] at hr
    simp at hr

theorem chute_continuity_ret (pf : Platform) (env : Env) (h : Handles) (u u2 : USB_STATUS)
    (s : St) (hr : (chute_continuity pf env h u s).2 = Res.ret u2) : u2 = u := by
  unfold chute_continuity at hr
  simp only [] at hr
  split at hr
  · split at hr
    · simp [error_fail_fast] at hr
    · split at hr
      · simp [error_fail_fast] at hr
      · exact call_flight_loop_ret env h u u2 _ hr
  · exact call_flight_loop_ret env h u u2 _ hr

theorem arming_gate_ret (pf : Platform) (env : Env) (h : Handles) (fuel : Nat)
    (u u2 : USB_STATUS) (s : St)
    (hr : (arming_gate pf env h fuel u s).2 = Res.ret u2) : u2 = u := by
  cases hsw : env.ign_switch_cont s.trace
  · rw [arming_gate_off pf env h fuel u s hsw] at hr
    simp at hr
    exact hr.symm
  · by_cases hinv : enabled_features_of pf s &&& invalid_feature_flags pf = 0
    · rw [arming_gate_valid pf env h fuel u s hsw hinv] at hr
      exact chute_continuity_ret pf env h u u2 _ hr
    · rw [arming_gate_invalid pf env h fuel u s hsw hinv] at hr
      simp at hr

theorem command_phase_ret (pf : Platform) (env : Env) (h : Handles) (fc : Nat) (s s1 : St)
    (u : USB_STATUS) (hcp : command_phase pf env h fc s = (s1, Res.ret u)) :
    (env.usb_detect (s.trace ++ [Event.led_set_color LED_COLOR.LED_GREEN]) = false →
      u = USB_STATUS.USB_OK) ∧
    (env.usb_detect (s.trace ++ [Event.led_set_color LED_COLOR.LED_GREEN]) = true →
      (env.usb_receive
        (s.trace ++ [Event.led_set_color LED_COLOR.LED_GREEN, Event.usb_detect true]) 1).1
        = USB_STATUS.USB_OK → u = USB_STATUS.USB_OK) ∧
    (env.usb_detect (s.trace ++ [Event.led_set_color LED_COLOR.LED_GREEN]) = true →
      (env.usb_receive
        (s.trace ++ [Event.led_set_color LED_COLOR.LED_GREEN, Event.usb_detect true]) 1).1
        ≠ USB_STATUS.USB_OK →
      u = (env.usb_receive
        (s.trace ++ [Event.led_set_color LED_COLOR.LED_GREEN, Event.usb_detect true]) 1).1) := by
  refine ⟨fun hdet => ?_, fun hdet hok => ?_, fun hdet hne => ?_⟩
  · rw [command_phase_no_host pf env h fc s hdet] at hcp
    simp at hcp
    exact hcp.2.symm
  · have hrx : env.usb_receive
        (s.trace ++ [Event.led_set_color LED_COLOR.LED_GREEN, Event.usb_detect true]) 1
        = (USB_STATUS.USB_OK, (env.usb_receive
          (s.trace ++ [Event.led_set_color LED_COLOR.LED_GREEN, Event.usb_detect true]) 1).2) := by
      rw [← hok]
    rw [command_phase_switch pf env h fc s _ hdet hrx] at hcp
    have h2 := congrArg Prod.snd hcp
    simp only at h2
    split at h2
    · exact connect_op_ret env fc _ u h2
    · split at h2
      · exact sensor_op_ret env _ u h2
      · split at h2
        · exact fin_op_ret env h _ u h2
        · split at h2
          · exact flash_op_ret pf env h _ u h2
          · split at h2
            · exact preset_op_ret pf env h _ u h2
            · simp at h2
              exact h2.symm
  · have hrx : env.usb_receive
        (s.trace ++ [Event.led_set_color LED_COLOR.LED_GREEN, Event.usb_detect true]) 1
        = ((env.usb_receive
          (s.trace ++ [Event.led_set_color LED_COLOR.LED_GREEN, Event.usb_detect true]) 1).1,
          (env.usb_receive
          (s.trace ++ [Event.led_set_color LED_COLOR.LED_GREEN, Event.usb_detect true]) 1).2) :=
      rfl
    rw [command_phase_rx_not_ok pf env h fc s _ _ hdet hrx hne] at hcp
    simp at hcp
    exact hcp.2.symm

/-- C20: with `error_fail_fast` not returning, whenever `prelaunch_terminal`
returns, the value is `USB_OK` when no host was detected, `USB_OK` when the
opcode byte was received with `USB_OK` (whatever the opcode and whatever the
later transmits answered), and the status of the opcode receive when that
status is not `USB_OK`. -/
theorem dispatcher_return_value (pf : Platform) (env : Env) (h : Handles) (fc : Nat)
    (fuel : Nat) (s s2 : St) (u : USB_STATUS)
    (hret : prelaunch_terminal pf env h fc fuel s = (s2, Res.ret u)) :
    (env.usb_detect (s.trace ++ [Event.led_set_color LED_COLOR.LED_GREEN]) = false →
      u = USB_STATUS.USB_OK) ∧
    (env.usb_detect (s.trace ++ [Event.led_set_color LED_COLOR.LED_GREEN]) = true →
      (env.usb_receive
        (s.trace ++ [Event.led_set_color LED_COLOR.LED_GREEN, Event.usb_detect true]) 1).1
        = USB_STATUS.USB_OK → u = USB_STATUS.USB_OK) ∧
    (env.usb_detect (s.trace ++ [Event.led_set_color LED_COLOR.LED_GREEN]) = true →
      (env.usb_receive
        (s.trace ++ [Event.led_set_color LED_COLOR.LED_GREEN, Event.usb_detect true]) 1).1
        ≠ USB_STATUS.USB_OK →
      u = (env.usb_receive
        (s.trace ++ [Event.led_set_color LED_COLOR.LED_GREEN, Event.usb_detect true]) 1).1) := by
  unfold prelaunch_terminal at hret
  generalize hq : command_phase pf env h fc s = q at hret
  obtain ⟨s1, r⟩ := q
  cases r with
  | ret u1 =>
    simp only [] at hret
    have hu : u = u1 := arming_gate_ret pf env h fuel u1 u s1 (by rw [hret])
    rw [hu]
    exact command_phase_ret pf env h fc s s1 u1 hq
  | fatal e => simp at hret
  | noreturn => simp at hret
  | timeout => simp at hret

/-- Witness for C20: the host sends `CONNECT_OP`, the transmit of the firmware
code answers `USB_FAIL`, the ignition switch is not asserted; the dispatcher
returns, and the value is `USB_OK`. -/
theorem dispatcher_return_value_witness :
    prelaunch_terminal samplePlatform
        (scriptEnv [(USB_STATUS.USB_OK, [0x02])] USB_STATUS.USB_FAIL FLASH_STATUS.FLASH_OK
          USB_STATUS.USB_OK false) sampleHandles 7 0
        (sampleSt { checksum := 0, config_settings := [0, 0, 0, 0] }) =
      ({ sampleSt { checksum := 0, config_settings := [0, 0, 0, 0] } with
          trace := [Event.led_set_color LED_COLOR.LED_GREEN, Event.usb_detect true,
            Event.usb_receive 1 USB_STATUS.USB_OK [0x02], Event.ping,
            Event.usb_transmit (TxBuf.bytes [7]) 1 USB_STATUS.USB_FAIL,
            Event.ign_switch_cont false] }, Res.ret USB_STATUS.USB_OK) ∧
    USB_STATUS.USB_OK = USB_STATUS.USB_OK :=
  ⟨by decide,
    (dispatcher_return_value samplePlatform
      (scriptEnv [(USB_STATUS.USB_OK, [0x02])] USB_STATUS.USB_FAIL FLASH_STATUS.FLASH_OK
        USB_STATUS.USB_OK false) sampleHandles 7 0
      (sampleSt { checksum := 0, config_settings := [0, 0, 0, 0] })
      { sampleSt { checksum := 0, config_settings := [0, 0, 0, 0] } with
          trace := [Event.led_set_color LED_COLOR.LED_GREEN, Event.usb_detect true,
            Event.usb_receive 1 USB_STATUS.USB_OK [0x02], Event.ping,
            Event.usb_transmit (TxBuf.bytes [7]) 1 USB_STATUS.USB_FAIL,
            Event.ign_switch_cont false] }
      USB_STATUS.USB_OK (by decide)).2.1 (by decide) (by decide)⟩

/-! ## No normal exit of the idle supervisor -/

theorem idle_loop_not_idle (pf : Platform) (env : Env) (h : Handles) (fc : Nat) (fuel : Nat)
    (s : St) (hs : s.flight_computer_state ≠ FLIGHT_COMP_STATE_TYPE.FC_STATE_IDLE) :
    idle_loop pf env h fc fuel s =
      (emit s (Event.error_fail_fast ERROR_CODE.ERROR_INVALID_STATE_ERROR),
        Res.fatal ERROR_CODE.ERROR_INVALID_STATE_ERROR) := by
  cases fuel <;> simp [idle_loop, hs, error_fail_fast]

theorem idle_loop_never_returns (pf : Platform) (env : Env) (h : Handles) (fc : Nat)
    (fuel : Nat) (s : St) : (idle_loop pf env h fc fuel s).2 ≠ Res.ret () := by
  induction fuel generalizing s with
  | zero =>
    by_cases hs : s.flight_computer_state = FLIGHT_COMP_STATE_TYPE.FC_STATE_IDLE
    · simp [idle_loop, hs]
    · rw [idle_loop_not_idle pf env h fc 0 s hs]
      simp
  | succ n ih =>
    by_cases hs : s.flight_computer_state = FLIGHT_COMP_STATE_TYPE.FC_STATE_IDLE
    · unfold idle_loop
      rw [if_pos hs]
      generalize prelaunch_terminal pf env h fc n s = q
      obtain ⟨s1, r⟩ := q
      cases r with
      | ret u =>
        simp only []
        by_cases hu : u = USB_STATUS.USB_FAIL
        · simp [hu, error_fail_fast]
        · rw [if_neg hu]
          exact ih s1
      | fatal e => simp [Res.cast]
      | noreturn => simp [Res.cast]
      | timeout => simp [Res.cast]
    · rw [idle_loop_not_idle pf env h fc (n + 1) s hs]
      simp

/-- C21: `pre_launch_loop` and its loop never end by return, for every amount
of fuel: whenever the loop test finds a state other than `FC_STATE_IDLE` the
call after the loop is `error_fail_fast( ERROR_INVALID_STATE_ERROR )`, which
does not return; this includes the cycle in which the dispatcher returned
(after `flight_loop` returned) with the state `FC_STATE_FLIGHT`. -/
theorem pre_launch_loop_has_no_normal_exit (pf : Platform) (env : Env) (h : Handles) (fc : Nat)
    (fuel : Nat) (s : St) :
    (pre_launch_loop pf env h fc fuel s).2 ≠ Res.ret () ∧
    (idle_loop pf env h fc fuel s).2 ≠ Res.ret () ∧
    (s.flight_computer_state ≠ FLIGHT_COMP_STATE_TYPE.FC_STATE_IDLE →
      idle_loop pf env h fc fuel s =
        (emit s (Event.error_fail_fast ERROR_CODE.ERROR_INVALID_STATE_ERROR),
          Res.fatal ERROR_CODE.ERROR_INVALID_STATE_ERROR)) ∧
    (∀ (s1 : St) (u : USB_STATUS),
      s.flight_computer_state = FLIGHT_COMP_STATE_TYPE.FC_STATE_IDLE →
      prelaunch_terminal pf env h fc fuel s = (s1, Res.ret u) →
      u ≠ USB_STATUS.USB_FAIL →
      s1.flight_computer_state = FLIGHT_COMP_STATE_TYPE.FC_STATE_FLIGHT →
      idle_loop pf env h fc (fuel + 1) s =
        (emit s1 (Event.error_fail_fast ERROR_CODE.ERROR_INVALID_STATE_ERROR),
          Res.fatal ERROR_CODE.ERROR_INVALID_STATE_ERROR)) := by
  refine ⟨?_, idle_loop_never_returns pf env h fc fuel s,
    idle_loop_not_idle pf env h fc fuel s, ?_⟩
  · unfold pre_launch_loop
    exact idle_loop_never_returns pf env h fc fuel _
  · intro s1 u hidle hpt hu hfl
    have hstep : idle_loop pf env h fc (fuel + 1) s = idle_loop pf env h fc fuel s1 := by
      simp [idle_loop, hidle, hpt, hu]
    rw [hstep]
    exact idle_loop_not_idle pf env h fc fuel s1 (by rw [hfl]; decide)

/-- Witness for C21: the ignition switch is asserted with a valid preset, the
flight loop returns with the state `FC_STATE_FLIGHT`, and the supervisor calls
`error_fail_fast( ERROR_INVALID_STATE_ERROR )`. -/
theorem pre_launch_loop_has_no_normal_exit_witness :
    idle_loop samplePlatform flightReturnsEnv sampleHandles 7 (0 + 1)
        (sampleSt { checksum := 0, config_settings := [0, 0, 0, 0] }) =
      (emit
        { preset_data := { checksum := 0, config_settings := [0, 0, 0, 0] },
          flight_computer_state := FLIGHT_COMP_STATE_TYPE.FC_STATE_FLIGHT,
          flash_status := FLASH_STATUS.FLASH_OK, flash_address := 0,
          trace := [Event.led_set_color LED_COLOR.LED_GREEN, Event.usb_detect true,
            Event.usb_receive 1 USB_STATUS.USB_OK [255], Event.ign_switch_cont true,
            Event.flight_loop 0x400 0x100 0x200 0x300 0x500] }
        (Event.error_fail_fast ERROR_CODE.ERROR_INVALID_STATE_ERROR),
        Res.fatal ERROR_CODE.ERROR_INVALID_STATE_ERROR) :=
  (pre_launch_loop_has_no_normal_exit samplePlatform flightReturnsEnv sampleHandles 7 0
    (sampleSt { checksum := 0, config_settings := [0, 0, 0, 0] })).2.2.2
    { preset_data := { checksum := 0, config_settings := [0, 0, 0, 0] },
      flight_computer_state := FLIGHT_COMP_STATE_TYPE.FC_STATE_FLIGHT,
      flash_status := FLASH_STATUS.FLASH_OK, flash_address := 0,
      trace := [Event.led_set_color LED_COLOR.LED_GREEN, Event.usb_detect true,
        Event.usb_receive 1 USB_STATUS.USB_OK [255], Event.ign_switch_cont true,
        Event.flight_loop 0x400 0x100 0x200 0x300 0x500] }
    USB_STATUS.USB_OK (by decide) (by decide) (by decide) (by decide)

end Prelaunch
